import Mathlib

/-!
# gstplay: the GStreamer adapter (`src/gstreamer.c`)

A shallow embedding of the pipeline lifecycle adapter, the bus dispatcher and the
property adapters of `gstreamer.c`, built for GStreamer 1.x (the
`GST_CHECK_VERSION(1, 0, 0)` branches).

* The file's static variables are the fields of `State`, together with the part of the
  world the functions act on: the native values held by the engine's colour-balance
  channels and the chronological `trace` of calls made into the engine, GLib and the host.
* What the engine answers (parse results, queries, element states, caps) is the `Engine`
  record; what the host answers (`gstplay.h` functions implemented outside this file) is
  the `Host` record.
* `gint` and `gint64` values are `Int`; the `int` subtraction of the colour-balance code wraps
  to 32 bits (`wrap_gint`).  `GstClockTime` (`guint64`) variables hold a `Nat` below `2 ^ 64`.
* A finite `gdouble` is the rational it stands for (`ℚ`); a computed double is an
  `Option gdouble`, `none` standing for an infinity or a NaN.  Every arithmetic operation
  rounds its exact result to IEEE 754 binary64, to nearest with ties to even
  (`round_double`), as SSE2 code does.  The conversion of a double to `gint` truncates toward
  zero and gives `INT_MIN` when the result is no `gint` (what x86-64 does where C leaves the
  result undefined).
* Diagnostics written with `printf` are not part of the trace.
* Not embedded: `gstreamer_init`, `gstreamer_determine_video_dimensions`,
  `gstreamer_get_duration_str`, the two version accessors, and the GStreamer 0.10 branches
  (`find_color_balance_element` among them).
-/

namespace GstPlay

/-! ## Engine and host data -/

/-- Engine objects (`GstElement *`) are identified by a number; `NULL` is `none`. -/
abbrev GstElement := Nat

/-- Pads (`GstPad *`) are identified by a number. -/
abbrev GstPad := Nat

/-- A `GMainLoop *` is identified by a number. -/
abbrev GMainLoop := Nat

/-- Pointer to a `GstColorBalanceChannel` owned by the engine. -/
abbrev ChannelPtr := Nat

/-- Exact model of `gdouble`. -/
abbrev gdouble := ℚ

/-- The GStreamer element states, in the order of the C enumeration:
`GST_STATE_VOID_PENDING = 0`, `GST_STATE_NULL = 1`, `GST_STATE_READY = 2`,
`GST_STATE_PAUSED = 3`, `GST_STATE_PLAYING = 4`. -/
inductive GstState
  | VOID_PENDING
  | NULL
  | READY
  | PAUSED
  | PLAYING
deriving DecidableEq, Repr

/-- The integer value of a `GstState` enumerator. -/
def GstState.toNat : GstState → Nat
  | .VOID_PENDING => 0
  | .NULL => 1
  | .READY => 2
  | .PAUSED => 3
  | .PLAYING => 4

/-- Modelled from the spec: the `StartupState` enumeration of `gstplay.h`, which is not
among the sources; the spec gives the startup mode as one of PAUSED and PLAYING. -/
inductive StartupState
  | STARTUP_PAUSED
  | STARTUP_PLAYING
deriving DecidableEq, Repr

/-- The first structure of a caps object, reduced to the fields `read_video_props` asks
for; a field the structure does not carry is `none`. -/
structure GstStructure where
  format : Option String
  width : Option Int
  height : Option Int
  pixel_aspect_ratio : Option (Int × Int)
  framerate : Option (Int × Int)
deriving DecidableEq, Repr

/-- A caps object: whether `gst_caps_is_fixed` holds, and its first structure. -/
structure GstCaps where
  is_fixed : Bool
  structure0 : GstStructure
deriving DecidableEq, Repr

/-- A `GstColorBalanceChannel`: label and native range. -/
structure GstColorBalanceChannel where
  label : String
  min_value : Int
  max_value : Int
deriving DecidableEq, Repr

/-- A closure made by `g_cclosure_new (cb_func, user_data, NULL)`. -/
structure GClosure where
  cb_func : Nat
  user_data : Nat
deriving DecidableEq, Repr

/-- Messages delivered to `bus_callback`, by `GST_MESSAGE_TYPE`. -/
inductive GstMessage
  | EOS
  | ERROR (message : String)
  | STATE_CHANGED
  | BUFFERING (percent : Int)
  | APPLICATION (structure_name : String)
  | OTHER
deriving DecidableEq, Repr

/-- Calls made into the engine, GLib and the host, as recorded in `State.trace`. -/
inductive Effect
  | gst_parse_launch (s : String)
  | gst_bus_add_watch (pipeline : Option GstElement) (loop : GMainLoop)
  | gst_bus_set_sync_handler (pipeline : Option GstElement)
  | g_list_free_pads (cells : List GstPad)
  | g_signal_connect_pad_added (element : GstElement)
  | gst_element_set_state (element : Option GstElement) (state : GstState)
  | gst_element_get_state_wait (element : Option GstElement)
  | g_main_context_drain
  | g_source_remove (id : Nat)
  | gst_object_unref (element : Option GstElement)
  | g_closure_invoke (closure : GClosure)
  | g_closure_unref (closure : GClosure)
  | g_list_free_closures (cells : List GClosure)
  | gst_element_seek_simple (element : Option GstElement) (time_nanoseconds : Int)
  | g_object_set_volume (element : Option GstElement) (volume : gdouble)
  | gst_color_balance_set_value (element : Option GstElement) (channel : ChannelPtr) (v : Int)
  | g_main_loop_quit (loop : GMainLoop)
  | main_show_error_message (title detail : String)
  | main_get_current_uri
  | main_create_pipeline (uri title : String)
  | g_timeout_add_seconds_seek_to_time_cb (seconds : Nat)
  | gst_video_overlay_set_window_handle (overlay : Option GstElement) (handle : Nat)
  | gst_video_overlay_expose (overlay : Option GstElement)
deriving DecidableEq, Repr

/-- What the engine answers when asked.  `gst_element_query_duration` is the engine's
wrapper around the duration query that `gstreamer_get_duration` builds by hand, so both
read `query_duration`. -/
structure Engine where
  /-- Result of `gst_parse_launch`; `none` is `NULL` (the description was rejected). -/
  gst_parse_launch : String → Option GstElement
  /-- Source id returned by `gst_bus_add_watch`. -/
  gst_bus_add_watch : Option GstElement → Nat
  /-- Elements visited by `gst_bin_iterate_elements`. -/
  bin_elements : Option GstElement → List GstElement
  /-- Current state of an element (`GST_STATE (x)`, `gst_element_get_state`). -/
  element_state : Option GstElement → GstState
  /-- Answer to the position query; `none` when the query fails. -/
  query_position : Option GstElement → Option Int
  /-- Answer to the duration query; `none` when the query fails. -/
  query_duration : Option GstElement → Option Int
  /-- Value of the `volume` property. -/
  volume : Option GstElement → gdouble
  /-- Result of `gst_pad_get_current_caps`; `none` when it is not a caps object. -/
  pad_current_caps : GstPad → Option GstCaps
  /-- Result of `gst_color_balance_list_channels`; `none` when the element is not a
  `GstColorBalance`. -/
  color_balance_channels : Option GstElement → Option (List ChannelPtr)
  /-- The channel record a channel pointer designates. -/
  channel : ChannelPtr → GstColorBalanceChannel

/-- Functions of `gstplay.h` implemented by the host (main program, configuration, GUI). -/
structure Host where
  main_have_gui : Bool
  config_quit_on_stream_end : Bool
  config_software_color_balance : Bool
  config_get_global_color_balance_default : Fin 4 → gdouble
  main_get_current_uri : String × String
  main_create_pipeline : String → String → String
  main_get_main_loop : GMainLoop
  gui_get_video_window_handle : Nat

/-- The static variables of `gstreamer.c`, the native values stored by the engine's
colour-balance channels, and the trace of calls made so far. -/
structure State where
  video_window_overlay : Option GstElement
  playbin_pipeline : Option GstElement
  pipeline : Option GstElement
  bus_watch_id : Nat
  bus_quit_on_playing : Bool
  set_default_settings_on_playing : Bool
  created_pads_list : List GstPad
  pipeline_description : String
  suspended_state : GstState
  suspended_pos : Nat
  requested_position : Nat
  suspended_audio_volume : gdouble
  end_of_stream : Bool
  using_playbin : Bool
  inform_pipeline_destroyed_cb_list : List GClosure
  color_balance_element : Option GstElement
  color_balance_channel : Fin 4 → Option ChannelPtr
  last_value_set : Fin 4 → Int
  /-- Engine side: the native value each colour-balance channel currently holds. -/
  engine_value : ChannelPtr → Int
  /-- Calls made so far, oldest first. -/
  trace : List Effect

/-- The state at process start: initialised statics hold their initialiser, the others
are zero (`NULL`, `FALSE`, `0`; for a `GstState` that is `GST_STATE_VOID_PENDING`). -/
def State.initial (engine_value : ChannelPtr → Int) : State where
  video_window_overlay := none
  playbin_pipeline := none
  pipeline := none
  bus_watch_id := 0
  bus_quit_on_playing := false
  set_default_settings_on_playing := false
  created_pads_list := []
  pipeline_description := ""
  suspended_state := GstState.VOID_PENDING
  suspended_pos := 0
  requested_position := 0
  suspended_audio_volume := 0
  end_of_stream := false
  using_playbin := false
  inform_pipeline_destroyed_cb_list := []
  color_balance_element := none
  color_balance_channel := fun _ => none
  last_value_set := fun _ => 0
  engine_value := engine_value
  trace := []

/-- Conversion of a `gint64` to `guint64` (`GstClockTime`). -/
def to_guint64 (x : Int) : Nat := (x % 2 ^ 64).toNat

/-- Conversion of a `guint64` to `gint64`. -/
def to_gint64 (n : Nat) : Int := if n % 2 ^ 64 < 2 ^ 63 then (n % 2 ^ 64 : Nat) else (n % 2 ^ 64 : Nat) - 2 ^ 64

/-! ## Machine arithmetic -/

/-- The result of an `int` operation whose exact value is `n`: reduced to 32 bits, two's
complement. -/
def wrap_gint (n : Int) : Int := (n + 2 ^ 31) % 2 ^ 32 - 2 ^ 31

/-- Rounding of a rational to the nearest integer, ties to the even one. -/
def round_half_even (r : ℚ) : Int :=
  if r - ⌊r⌋ < 1 / 2 then ⌊r⌋
  else if 1 / 2 < r - ⌊r⌋ then ⌊r⌋ + 1
  else if ⌊r⌋ % 2 = 0 then ⌊r⌋ else ⌊r⌋ + 1

/-- The exponent of the spacing of the binary64 numbers around `q`: 52 below the exponent of
`q` for a normal number, `-1074` in the subnormal range. -/
def ulp_exponent (q : ℚ) : Int := max (Int.log 2 |q| - 52) (-1074)

/-- Rounding of an exact result to binary64, to nearest with ties to even; `none` when the
rounded magnitude reaches `2 ^ 1024` (the result is an infinity). -/
def round_double (q : ℚ) : Option gdouble :=
  let r : ℚ := (round_half_even (q / 2 ^ ulp_exponent q) : ℚ) * 2 ^ ulp_exponent q
  if 2 ^ 1024 ≤ |r| then none else some r

/-- The `double` literal `0.01`: the binary64 number nearest to 1/100. -/
def double_0_01 : gdouble := 5764607523034235 / 576460752303423488

/-- Addition of doubles. -/
def double_add (a b : Option gdouble) : Option gdouble :=
  match a, b with
  | some x, some y => round_double (x + y)
  | _, _ => none

/-- Subtraction of doubles. -/
def double_sub (a b : Option gdouble) : Option gdouble :=
  match a, b with
  | some x, some y => round_double (x - y)
  | _, _ => none

/-- Multiplication of doubles. -/
def double_mul (a b : Option gdouble) : Option gdouble :=
  match a, b with
  | some x, some y => round_double (x * y)
  | _, _ => none

/-- Division of a double by a finite double; division by zero gives an infinity or a NaN. -/
def double_div (a : Option gdouble) (y : gdouble) : Option gdouble :=
  match a with
  | some x => if y = 0 then none else round_double (x / y)
  | none => none

/-- Conversion of a double to `gint`: the fractional part is discarded; when the result is
no `gint` (also for an infinity or NaN) the x86-64 conversion gives `INT_MIN`. -/
def double_to_gint (d : Option gdouble) : Int :=
  match d with
  | some q => if -2 ^ 31 - 1 < q ∧ q < 2 ^ 31 then (if 0 ≤ q then ⌊q⌋ else ⌈q⌉) else -2 ^ 31
  | none => -2 ^ 31

/-- Modelled from the spec: the channel indices `CHANNEL_BRIGHTNESS`, `CHANNEL_CONTRAST`,
`CHANNEL_HUE`, `CHANNEL_SATURATION` of `gstplay.h`, which is not among the sources; the spec
lists the four slots as brightness, contrast, hue, saturation. -/
def CHANNEL_BRIGHTNESS : Fin 4 := 0

/-- Modelled from the spec: see `CHANNEL_BRIGHTNESS`. -/
def CHANNEL_CONTRAST : Fin 4 := 1

/-- Modelled from the spec: see `CHANNEL_BRIGHTNESS`. -/
def CHANNEL_HUE : Fin 4 := 2

/-- Modelled from the spec: see `CHANNEL_BRIGHTNESS`. -/
def CHANNEL_SATURATION : Fin 4 := 3

/-! ## Lifecycle: destroy -/

/-- The body of the loop of `gstreamer_destroy_pipeline` over the callback list: each
closure is invoked, then released. -/
def invoke_closures : List GClosure → List Effect
  | [] => []
  | closure :: list =>
    Effect.g_closure_invoke closure :: Effect.g_closure_unref closure :: invoke_closures list

/-- The function `gstreamer_destroy_pipeline`.  `gst_object_unref` and `g_list_free` release what
`pipeline` and `inform_pipeline_destroyed_cb_list` point to; neither variable is assigned. -/
def gstreamer_destroy_pipeline (st : State) : State :=
  { st with
    pipeline_description := ""
    trace := st.trace ++
      [Effect.gst_element_set_state st.pipeline GstState.PAUSED,
       Effect.gst_element_get_state_wait st.pipeline,
       Effect.g_main_context_drain,
       Effect.gst_element_set_state st.pipeline GstState.READY,
       Effect.gst_element_get_state_wait st.pipeline,
       Effect.gst_element_set_state st.pipeline GstState.NULL,
       Effect.g_source_remove st.bus_watch_id,
       Effect.gst_object_unref st.pipeline] ++
      invoke_closures st.inform_pipeline_destroyed_cb_list ++
      [Effect.g_list_free_closures st.inform_pipeline_destroyed_cb_list] }

/-- The function `gstreamer_add_pipeline_destroyed_cb`. -/
def gstreamer_add_pipeline_destroyed_cb (cb_func user_data : Nat) (st : State) : State :=
  { st with
    inform_pipeline_destroyed_cb_list :=
      st.inform_pipeline_destroyed_cb_list ++ [GClosure.mk cb_func user_data] }

/-! ## Colour balance -/

/-- The loop of `gstreamer_prepare_color_balance` over the channel list: a channel goes to
the slot of its label; a later channel with the same label replaces an earlier one. -/
def classify_channels (eng : Engine) :
    List ChannelPtr → (Fin 4 → Option ChannelPtr) → (Fin 4 → Option ChannelPtr)
  | [], slots => slots
  | channel :: channel_list, slots =>
    let label := (eng.channel channel).label
    let slots1 :=
      if label = "BRIGHTNESS" then Function.update slots CHANNEL_BRIGHTNESS (some channel)
      else if label = "CONTRAST" then Function.update slots CHANNEL_CONTRAST (some channel)
      else if label = "HUE" then Function.update slots CHANNEL_HUE (some channel)
      else if label = "SATURATION" then Function.update slots CHANNEL_SATURATION (some channel)
      else slots
    classify_channels eng channel_list slots1

/-- The second loop of `gstreamer_prepare_color_balance`, over the slots `i`, carrying `r`
(as the bit pattern of the `int`) and `last_value_set`. -/
def collect_available (slots : Fin 4 → Option ChannelPtr) (engine_value : ChannelPtr → Int) :
    List (Fin 4) → Nat × (Fin 4 → Int) → Nat × (Fin 4 → Int)
  | [], acc => acc
  | i :: rest, (r, last) =>
    match slots i with
    | some channel =>
      collect_available slots engine_value rest
        (r ||| (1 <<< i.val), Function.update last i (engine_value channel))
    | none => collect_available slots engine_value rest (r, last)

/-- The function `gstreamer_prepare_color_balance`.  The local `int r` is declared without an
initialiser: `r_uninit` is the value the variable holds when the second loop starts.  The
result is the bit pattern of the returned `int`. -/
def gstreamer_prepare_color_balance (eng : Engine) (r_uninit : Nat) (st : State) : Nat × State :=
  let st1 := { st with color_balance_element := st.pipeline }
  match eng.color_balance_channels st1.color_balance_element with
  | none => (0, st1)
  | some [] => (0, st1)
  | some (channel :: channel_list) =>
    let slots := classify_channels eng (channel :: channel_list) (fun _ => none)
    let acc := collect_available slots st1.engine_value [0, 1, 2, 3] (r_uninit, st1.last_value_set)
    (acc.1, { st1 with color_balance_channel := slots, last_value_set := acc.2 })

/-- The initialiser of `v` in `gstreamer_set_color_balance`:
`min_value + value * 0.01 * (max_value - min_value)`, with the subtraction in `int`, the
products and the sum in `double`, converted to `gint`. -/
def native_value (c : GstColorBalanceChannel) (value : gdouble) : Int :=
  double_to_gint
    (double_add (some (c.min_value : gdouble))
      (double_mul (double_mul (some value) (some double_0_01))
        (some ((wrap_gint (c.max_value - c.min_value) : Int) : gdouble))))

/-- The value returned by `gstreamer_get_color_balance` for the native value read:
`(v - min_value) * 100.0 / (max_value - min_value)`, with the last subtraction in `int` and
the rest in `double`. -/
def normalized_value (c : GstColorBalanceChannel) (native : Int) : Option gdouble :=
  double_div
    (double_mul (double_sub (some (native : gdouble)) (some (c.min_value : gdouble))) (some 100))
    ((wrap_gint (c.max_value - c.min_value) : Int) : gdouble)

/-- The function `gstreamer_set_color_balance`. -/
def gstreamer_set_color_balance (eng : Engine) (channel : Fin 4) (value : gdouble)
    (st : State) : State :=
  match st.color_balance_channel channel with
  | none => st
  | some ch =>
    let v : Int := native_value (eng.channel ch) value
    if v ≠ st.last_value_set channel then
      { st with
        engine_value := Function.update st.engine_value ch v
        last_value_set := Function.update st.last_value_set channel v
        trace := st.trace ++ [Effect.gst_color_balance_set_value st.color_balance_element ch v] }
    else st

/-- The function `gstreamer_get_color_balance`; `none` is a result that is no finite double
(the division by zero of a channel with `max_value = min_value`). -/
def gstreamer_get_color_balance (eng : Engine) (channel : Fin 4) (st : State) :
    Option gdouble :=
  match st.color_balance_channel channel with
  | none => some (-1)
  | some ch => normalized_value (eng.channel ch) (st.engine_value ch)

/-- The loop of `gstreamer_set_default_settings`. -/
def set_default_settings_loop (host : Host) (eng : Engine) : List (Fin 4) → State → State
  | [], st => st
  | i :: rest, st =>
    set_default_settings_loop host eng rest
      (gstreamer_set_color_balance eng i (host.config_get_global_color_balance_default i) st)

/-- The function `gstreamer_set_default_settings`. -/
def gstreamer_set_default_settings (host : Host) (eng : Engine) (r_uninit : Nat)
    (st : State) : State :=
  if !host.config_software_color_balance then st
  else
    set_default_settings_loop host eng [0, 1, 2, 3]
      (gstreamer_prepare_color_balance eng r_uninit st).2

/-- The function `gstreamer_have_software_color_balance`. -/
def gstreamer_have_software_color_balance : Bool := true

/-! ## Bus dispatch -/

/-- The function `gstreamer_expose_video_overlay`. -/
def gstreamer_expose_video_overlay (st : State) : State :=
  match st.video_window_overlay with
  | none => st
  | some overlay =>
    { st with trace := st.trace ++ [Effect.gst_video_overlay_expose (some overlay)] }

/-- The function `bus_callback`; its `data` argument is the main loop. -/
def bus_callback (host : Host) (eng : Engine) (r_uninit : Nat) (loop : GMainLoop)
    (msg : GstMessage) (st : State) : Bool × State :=
  match msg with
  | GstMessage.EOS =>
    let st1 :=
      if host.config_quit_on_stream_end || !host.main_have_gui then
        let st2 := gstreamer_destroy_pipeline st
        { st2 with trace := st2.trace ++ [Effect.g_main_loop_quit loop] }
      else st
    (true, { st1 with end_of_stream := true })
  | GstMessage.ERROR message =>
    let st1 := gstreamer_destroy_pipeline st
    (true, { st1 with
      trace := st1.trace ++
        [Effect.main_show_error_message
          "Processing error (unrecognized format or other error)." message] })
  | GstMessage.STATE_CHANGED =>
    let st1 :=
      if st.bus_quit_on_playing then
        if eng.element_state st.playbin_pipeline = GstState.PLAYING then
          { st with trace := st.trace ++ [Effect.g_main_loop_quit loop] }
        else st
      else st
    let st2 :=
      if st1.set_default_settings_on_playing &&
          decide (eng.element_state st1.pipeline = GstState.PLAYING) then
        { gstreamer_set_default_settings host eng r_uninit st1 with
          set_default_settings_on_playing := false }
      else st1
    (true, st2)
  | GstMessage.BUFFERING percent =>
    if st.bus_quit_on_playing then (true, st)
    else if percent < 100 then
      if eng.element_state st.pipeline ≠ GstState.PAUSED then
        (true, { st with
          trace := st.trace ++ [Effect.gst_element_set_state st.pipeline GstState.PAUSED] })
      else (true, st)
    else
      if eng.element_state st.pipeline ≠ GstState.PLAYING then
        (true, { st with
          trace := st.trace ++ [Effect.gst_element_set_state st.pipeline GstState.PLAYING] })
      else (true, st)
  | GstMessage.APPLICATION structure_name =>
    if structure_name = "GstLaunchInterrupt" then
      let st1 := gstreamer_destroy_pipeline st
      (true, { st1 with trace := st1.trace ++ [Effect.g_main_loop_quit loop] })
    else (true, st)
  | GstMessage.OTHER => (true, st)

/-- The function `bus_sync_handler`; `is_prepare_window_handle` is the answer of
`gst_is_video_overlay_prepare_window_handle_message` and `src` the message source.  The
result is `true` for `GST_BUS_DROP` and `false` for `GST_BUS_PASS`. -/
def bus_sync_handler (host : Host) (is_prepare_window_handle : Bool) (src : Option GstElement)
    (st : State) : Bool × State :=
  if !is_prepare_window_handle then (false, st)
  else
    (true, { st with
      video_window_overlay := src
      trace := st.trace ++
        [Effect.gst_video_overlay_set_window_handle src host.gui_get_video_window_handle] })

/-! ## Video information -/

/-- The seven output variables of `gstreamer_get_video_info`; a `NULL` format is `none`. -/
structure VideoInfo where
  format : Option String
  width : Int
  height : Int
  framerate_numerator : Int
  framerate_denom : Int
  pixel_aspect_ratio_num : Int
  pixel_aspect_ratio_denom : Int
deriving DecidableEq, Repr

/-- The function `read_video_props`.  The `gst_structure_get_*` calls store through the output
pointers when the structure carries the field; the locals `width`, `height`, ... keep their
initial zero. -/
def read_video_props (caps : GstCaps) (out : VideoInfo) : VideoInfo :=
  if !caps.is_fixed then out
  else
    let str := caps.structure0
    let width : Int := 0
    let height : Int := 0
    let framerate_numerator : Int := 0
    let framerate_denom : Int := 0
    let pixel_aspect_ratio_num : Int := 0
    let pixel_aspect_ratio_denom : Int := 0
    let format := str.format
    let out1 := match str.width with
      | some w => { out with width := w }
      | none => out
    let out2 := match str.height with
      | some h => { out1 with height := h }
      | none => out1
    let out3 := match str.pixel_aspect_ratio with
      | some (n, d) => { out2 with pixel_aspect_ratio_num := n, pixel_aspect_ratio_denom := d }
      | none => out2
    let out4 := match str.framerate with
      | some (n, d) => { out3 with framerate_numerator := n, framerate_denom := d }
      | none => out3
    let out5 := if format ≠ none then { out4 with format := format } else out4
    let out6 := if width ≠ 0 then { out5 with width := width } else out5
    let out7 := if height ≠ 0 then { out6 with height := height } else out6
    let out8 :=
      if pixel_aspect_ratio_num ≠ 0 ∧ pixel_aspect_ratio_denom ≠ 0 then
        { out7 with
          pixel_aspect_ratio_num := pixel_aspect_ratio_num
          pixel_aspect_ratio_denom := pixel_aspect_ratio_denom }
      else out7
    if framerate_numerator ≠ 0 ∧ framerate_denom ≠ 0 then
      { out8 with framerate_numerator := framerate_numerator, framerate_denom := framerate_denom }
    else out8

/-- The loop over `created_pads_list` shared by `gstreamer_get_video_info` and
`gstreamer_get_video_dimensions`. -/
def scan_pads (eng : Engine) : List GstPad → VideoInfo → VideoInfo
  | [], out => out
  | pad :: list, out =>
    match eng.pad_current_caps pad with
    | some caps => scan_pads eng list (read_video_props caps out)
    | none => scan_pads eng list out

/-- The function `gstreamer_get_video_info`. -/
def gstreamer_get_video_info (eng : Engine) (st : State) : VideoInfo :=
  scan_pads eng st.created_pads_list
    { format := none, width := 0, height := 0, framerate_numerator := 0, framerate_denom := 0,
      pixel_aspect_ratio_num := 0, pixel_aspect_ratio_denom := 0 }

/-- The function `gstreamer_get_video_dimensions`: the same scan, keeping width and height. -/
def gstreamer_get_video_dimensions (eng : Engine) (st : State) : Int × Int :=
  let out := scan_pads eng st.created_pads_list
    { format := none, width := 0, height := 0, framerate_numerator := 0, framerate_denom := 0,
      pixel_aspect_ratio_num := 0, pixel_aspect_ratio_denom := 0 }
  (out.width, out.height)

/-- The function `gstreamer_get_pipeline_description`. -/
def gstreamer_get_pipeline_description (st : State) : String := st.pipeline_description

/-- The function `new_pad_cb`. -/
def new_pad_cb (pad : GstPad) (st : State) : State :=
  { st with created_pads_list := st.created_pads_list ++ [pad] }

/-! ## Lifecycle: run -/

/-- The function `gstreamer_run_pipeline`; the result is the returned `gboolean` and the state. -/
def gstreamer_run_pipeline (host : Host) (eng : Engine) (loop : GMainLoop) (s : String)
    (state : StartupState) (st : State) : Bool × State :=
  let st1 := { st with
    pipeline := eng.gst_parse_launch s
    trace := st.trace ++ [Effect.gst_parse_launch s] }
  match st1.pipeline with
  | none => (false, st1)
  | some p =>
    let watch :=
      [Effect.gst_bus_add_watch (some p) loop] ++
        (if host.main_have_gui then [Effect.gst_bus_set_sync_handler (some p)] else [])
    let free_pads :=
      if st1.created_pads_list ≠ [] then [Effect.g_list_free_pads st1.created_pads_list] else []
    let connect := (eng.bin_elements (some p)).map Effect.g_signal_connect_pad_added
    let start :=
      if state = StartupState.STARTUP_PLAYING then
        Effect.gst_element_set_state (some p) GstState.PLAYING
      else Effect.gst_element_set_state (some p) GstState.PAUSED
    (true, { st1 with
      bus_quit_on_playing := false
      bus_watch_id := eng.gst_bus_add_watch (some p)
      created_pads_list := []
      set_default_settings_on_playing := true
      pipeline_description := s
      end_of_stream := false
      inform_pipeline_destroyed_cb_list := []
      trace := st1.trace ++ watch ++ free_pads ++ connect ++
        [Effect.gst_element_set_state (some p) GstState.READY, start] })

/-! ## Transport controls and queries -/

/-- The function `gstreamer_play`. -/
def gstreamer_play (st : State) : State :=
  { st with trace := st.trace ++ [Effect.gst_element_set_state st.pipeline GstState.PLAYING] }

/-- The function `gstreamer_pause`. -/
def gstreamer_pause (st : State) : State :=
  { st with trace := st.trace ++ [Effect.gst_element_set_state st.pipeline GstState.PAUSED] }

/-- The function `gstreamer_get_state`. -/
def gstreamer_get_state (eng : Engine) (st : State) : GstState := eng.element_state st.pipeline

/-- The function `gstreamer_get_position`: the returned value and the flag stored through
`error` when that pointer is not `NULL`. -/
def gstreamer_get_position (eng : Engine) (st : State) : Int × Bool :=
  if st.end_of_stream then
    match eng.query_duration st.pipeline with
    | some len => (len, false)
    | none => (0, true)
  else
    match eng.query_position st.pipeline with
    | some pos =>
      match eng.query_duration st.pipeline with
      | some _ => (pos, false)
      | none => (0, true)
    | none => (0, true)

/-- The function `gstreamer_get_duration`. -/
def gstreamer_get_duration (eng : Engine) (st : State) : Int :=
  match eng.query_duration st.pipeline with
  | some duration => duration
  | none => 0

/-- The function `gstreamer_seek_to_time`; whether the seek succeeded only selects a
diagnostic. -/
def gstreamer_seek_to_time (time_nanoseconds : Int) (st : State) : State :=
  { st with
    end_of_stream := false
    trace := st.trace ++ [Effect.gst_element_seek_simple st.pipeline time_nanoseconds] }

/-- The function `gstreamer_end_of_stream`. -/
def gstreamer_end_of_stream (st : State) : Bool := st.end_of_stream

/-- The function `gstreamer_no_pipeline`. -/
def gstreamer_no_pipeline (st : State) : Bool := st.pipeline_description.length == 0

/-- The function `gstreamer_no_video`. -/
def gstreamer_no_video (eng : Engine) (st : State) : Bool :=
  if gstreamer_no_pipeline st then true
  else
    let dims := gstreamer_get_video_dimensions eng st
    if dims.1 = 0 ∨ dims.2 = 0 then true else false

/-- The function `gstreamer_inform_playbin_used`. -/
def gstreamer_inform_playbin_used (status : Bool) (st : State) : State :=
  { st with using_playbin := status }

/-- The function `gstreamer_get_volume`. -/
def gstreamer_get_volume (eng : Engine) (st : State) : gdouble :=
  if !st.using_playbin then 0 else eng.volume st.pipeline

/-- The function `gstreamer_set_volume`. -/
def gstreamer_set_volume (volume : gdouble) (st : State) : State :=
  if !st.using_playbin then st
  else { st with trace := st.trace ++ [Effect.g_object_set_volume st.pipeline volume] }

/-- The function `seek_to_time_cb`, the timer callback scheduled by `gstreamer_restart_pipeline`. -/
def seek_to_time_cb (st : State) : Bool × State :=
  let st1 := gstreamer_seek_to_time (to_gint64 st.requested_position) st
  (false, gstreamer_set_volume st1.suspended_audio_volume st1)

/-! ## Lifecycle: suspend and restart -/

/-- The function `gstreamer_suspend_pipeline`. -/
def gstreamer_suspend_pipeline (eng : Engine) (st : State) : State :=
  if gstreamer_no_pipeline st then { st with suspended_state := GstState.NULL }
  else
    let st1 := { st with suspended_pos := to_guint64 (gstreamer_get_position eng st).1 }
    let st2 := { st1 with suspended_state := gstreamer_get_state eng st1 }
    let st3 := { st2 with suspended_audio_volume := gstreamer_get_volume eng st2 }
    gstreamer_destroy_pipeline (gstreamer_pause st3)

/-- The function `gstreamer_restart_pipeline`. -/
def gstreamer_restart_pipeline (host : Host) (eng : Engine) (st : State) : State :=
  if st.suspended_state = GstState.NULL then st
  else
    let uri := host.main_get_current_uri.1
    let video_title_filename := host.main_get_current_uri.2
    let st1 := { st with trace := st.trace ++ [Effect.main_get_current_uri] }
    let pipeline_str := host.main_create_pipeline uri video_title_filename
    let st2 := { st1 with
      trace := st1.trace ++ [Effect.main_create_pipeline uri video_title_filename] }
    let startup :=
      if st2.suspended_state = GstState.PLAYING then StartupState.STARTUP_PLAYING
      else StartupState.STARTUP_PAUSED
    let st3 := (gstreamer_run_pipeline host eng host.main_get_main_loop pipeline_str startup st2).2
    let st4 := { st3 with requested_position := st3.suspended_pos }
    { st4 with trace := st4.trace ++ [Effect.g_timeout_add_seconds_seek_to_time_cb 1] }

/-! ## Observations -/

/-- The closure of a `g_closure_invoke` call. -/
def Effect.invoked_closure : Effect → Option GClosure
  | Effect.g_closure_invoke c => some c
  | _ => none

/-- The closures invoked in a trace, in order. -/
def invoked_closures (tr : List Effect) : List GClosure := tr.filterMap Effect.invoked_closure

/-- The channel and value of a `gst_color_balance_set_value` call. -/
def Effect.color_balance_write : Effect → Option (ChannelPtr × Int)
  | Effect.gst_color_balance_set_value _ ch v => some (ch, v)
  | _ => none

/-- The number of `gst_color_balance_set_value` calls in a trace. -/
def color_balance_writes (tr : List Effect) : Nat :=
  (tr.filterMap Effect.color_balance_write).length

/-- The element and state of a `gst_element_set_state` call. -/
def Effect.state_request : Effect → Option (Option GstElement × GstState)
  | Effect.gst_element_set_state e s => some (e, s)
  | _ => none

/-- The state changes requested in a trace, in order. -/
def state_requests (tr : List Effect) : List (Option GstElement × GstState) :=
  tr.filterMap Effect.state_request

/-- The element and time of a `gst_element_seek_simple` call. -/
def Effect.seek_issued : Effect → Option (Option GstElement × Int)
  | Effect.gst_element_seek_simple e t => some (e, t)
  | _ => none

/-- The seeks issued in a trace, in order. -/
def seeks_issued (tr : List Effect) : List (Option GstElement × Int) :=
  tr.filterMap Effect.seek_issued

/-- The element and value of a write to the `volume` property. -/
def Effect.volume_written : Effect → Option (Option GstElement × gdouble)
  | Effect.g_object_set_volume e v => some (e, v)
  | _ => none

/-- The volumes written in a trace, in order. -/
def volumes_written (tr : List Effect) : List (Option GstElement × gdouble) :=
  tr.filterMap Effect.volume_written

/-- The calls a state has recorded beyond those of an earlier state. -/
def effects_since (before after : State) : List Effect :=
  after.trace.drop before.trace.length

/-- One `gstreamer_run_pipeline` call: the host and engine answering at that time and the
arguments. -/
structure RunRequest where
  host : Host
  eng : Engine
  loop : GMainLoop
  s : String
  state : StartupState

/-- What the accessors return after the run and after the destroy of one run, destroy pair. -/
structure RunDestroyObservation where
  run_result : Bool
  description_after_run : String
  no_pipeline_after_run : Bool
  description_after_destroy : String
  no_pipeline_after_destroy : Bool
deriving DecidableEq, Repr

/-- A sequence of `gstreamer_run_pipeline`, `gstreamer_destroy_pipeline` pairs, with the
accessors read after each call. -/
def run_destroy_pairs : List RunRequest → State → List RunDestroyObservation
  | [], _ => []
  | r :: rest, st =>
    let run := gstreamer_run_pipeline r.host r.eng r.loop r.s r.state st
    let st2 := gstreamer_destroy_pipeline run.2
    { run_result := run.1
      description_after_run := gstreamer_get_pipeline_description run.2
      no_pipeline_after_run := gstreamer_no_pipeline run.2
      description_after_destroy := gstreamer_get_pipeline_description st2
      no_pipeline_after_destroy := gstreamer_no_pipeline st2 } :: run_destroy_pairs rest st2

/-! ## Sample engines, hosts and states -/

/-- An engine that parses every description but `"!!"` into element 7, holds one
`BRIGHTNESS` channel with range 0..255, and reports one pad with fixed 640x480 caps. -/
def sample_engine : Engine where
  gst_parse_launch := fun s => if s = "!!" then none else some 7
  gst_bus_add_watch := fun _ => 1
  bin_elements := fun _ => [8, 9]
  element_state := fun _ => GstState.PLAYING
  query_position := fun _ => some 5000000000
  query_duration := fun _ => some 60000000000
  volume := fun _ => 1 / 2
  pad_current_caps := fun pad =>
    if pad = 1 then
      some ⟨true, ⟨none, some 640, some 480, none, none⟩⟩
    else if pad = 2 then
      some ⟨false, ⟨some "I420", some 1, some 1, some (1, 1), some (25, 1)⟩⟩
    else none
  color_balance_channels := fun _ => some [0]
  channel := fun _ => ⟨"BRIGHTNESS", 0, 255⟩

/-- The engine `sample_engine`, except that every element is reported in `GST_STATE_NULL`. -/
def sample_engine_null_state : Engine :=
  { sample_engine with element_state := fun _ => GstState.NULL }

/-- A host with a GUI that does not quit at the end of the stream. -/
def sample_host : Host where
  main_have_gui := true
  config_quit_on_stream_end := false
  config_software_color_balance := true
  config_get_global_color_balance_default := fun _ => 50
  main_get_current_uri := ("file:///a.ogg", "a.ogg")
  main_create_pipeline := fun uri _ => "playbin uri=" ++ uri
  main_get_main_loop := 3
  gui_get_video_window_handle := 4

/-- The state at process start, with every engine channel at native value 0. -/
def start_state : State := State.initial (fun _ => 0)

/-- A state with a live playbin pipeline: `start_state` after a successful run. -/
def live_state : State :=
  gstreamer_inform_playbin_used true
    (gstreamer_run_pipeline sample_host sample_engine 3 "playbin uri=file:///a.ogg"
      StartupState.STARTUP_PLAYING start_state).2

/-- A host like `sample_host`, configured to quit at the end of the stream. -/
def sample_host_quit : Host :=
  { sample_host with config_quit_on_stream_end := true }

/-- An engine like `sample_engine` in which pad 5 has fixed caps too: 320x240 with format,
pixel aspect ratio and framerate. -/
def sample_engine_two_fixed : Engine :=
  { sample_engine with
    pad_current_caps := fun pad =>
      if pad = 1 then
        some ⟨true, ⟨none, some 640, some 480, none, none⟩⟩
      else if pad = 5 then
        some ⟨true, ⟨some "I420", some 320, some 240, some (1, 1), some (25, 1)⟩⟩
      else none }

/-! ## Fields of the video information -/

/-- The five output fields of `gstreamer_get_video_info`. -/
inductive VideoField
  | format
  | width
  | height
  | framerate
  | pixel_aspect_ratio
deriving DecidableEq, Repr

/-- The value of one output field: a format string (or `NULL`), an integer, or a fraction. -/
inductive FieldValue
  | format (s : Option String)
  | int (n : Int)
  | fraction (num denom : Int)
deriving DecidableEq, Repr

/-- The value `gstreamer_get_video_info` returned for a field. -/
def VideoInfo.field (out : VideoInfo) : VideoField → FieldValue
  | VideoField.format => FieldValue.format out.format
  | VideoField.width => FieldValue.int out.width
  | VideoField.height => FieldValue.int out.height
  | VideoField.framerate => FieldValue.fraction out.framerate_numerator out.framerate_denom
  | VideoField.pixel_aspect_ratio =>
    FieldValue.fraction out.pixel_aspect_ratio_num out.pixel_aspect_ratio_denom

/-- The value a caps structure carries for a field, `none` when it does not carry it. -/
def GstStructure.field (str : GstStructure) : VideoField → Option FieldValue
  | VideoField.format => str.format.map (fun s => FieldValue.format (some s))
  | VideoField.width => str.width.map FieldValue.int
  | VideoField.height => str.height.map FieldValue.int
  | VideoField.framerate => str.framerate.map (fun nd => FieldValue.fraction nd.1 nd.2)
  | VideoField.pixel_aspect_ratio =>
    str.pixel_aspect_ratio.map (fun nd => FieldValue.fraction nd.1 nd.2)

/-- The value a pad supplies for a field: the one its caps carry when the pad has caps and
they are fixed, `none` otherwise. -/
def carried_field (eng : Engine) (pad : GstPad) (f : VideoField) : Option FieldValue :=
  match eng.pad_current_caps pad with
  | some caps => if caps.is_fixed then caps.structure0.field f else none
  | none => none

/-- A value that passes the tests `read_video_props` spells out before storing: a format that
is not `NULL`, an integer that is not 0, a fraction with neither part 0. -/
def FieldValue.nonzero : FieldValue → Prop
  | FieldValue.format s => s ≠ none
  | FieldValue.int n => n ≠ 0
  | FieldValue.fraction num denom => num ≠ 0 ∧ denom ≠ 0

/-- An engine like `sample_engine` whose `BRIGHTNESS` channel has the range
-2000000000..2000000000. -/
def sample_engine_wide : Engine :=
  { sample_engine with channel := fun _ => ⟨"BRIGHTNESS", -2000000000, 2000000000⟩ }

/-- An engine like `sample_engine` whose `BRIGHTNESS` channel has the range 0..100. -/
def sample_engine_percent : Engine :=
  { sample_engine with channel := fun _ => ⟨"BRIGHTNESS", 0, 100⟩ }

/-! ## Sequences of calls -/

/-- One call of a function of `gstreamer.c` that can change the state, with its arguments
and the host and engine answering at that time.  The accessors change nothing, and the two
functions that are not embedded (`gstreamer_init`, `gstreamer_determine_video_dimensions`)
assign none of the variables read by the position and duration queries; the messages that
the latter lets `bus_callback` handle are `bus_callback` calls of their own. -/
inductive AdapterCall
  | expose_video_overlay
  | bus_callback (host : Host) (eng : Engine) (r_uninit : Nat) (loop : GMainLoop)
      (msg : GstMessage)
  | bus_sync_handler (host : Host) (is_prepare_window_handle : Bool) (src : Option GstElement)
  | new_pad_cb (pad : GstPad)
  | run_pipeline (host : Host) (eng : Engine) (loop : GMainLoop) (s : String)
      (state : StartupState)
  | destroy_pipeline
  | add_pipeline_destroyed_cb (cb_func user_data : Nat)
  | play
  | pause
  | seek_to_time (time_nanoseconds : Int)
  | seek_to_time_cb
  | suspend_pipeline (eng : Engine)
  | restart_pipeline (host : Host) (eng : Engine)
  | inform_playbin_used (status : Bool)
  | set_volume (volume : gdouble)
  | prepare_color_balance (eng : Engine) (r_uninit : Nat)
  | set_color_balance (eng : Engine) (channel : Fin 4) (value : gdouble)
  | set_default_settings (host : Host) (eng : Engine) (r_uninit : Nat)

/-- The state after one call. -/
def AdapterCall.apply : AdapterCall → State → State
  | AdapterCall.expose_video_overlay, st => gstreamer_expose_video_overlay st
  | AdapterCall.bus_callback host eng r_uninit loop msg, st =>
    (GstPlay.bus_callback host eng r_uninit loop msg st).2
  | AdapterCall.bus_sync_handler host is_prepare_window_handle src, st =>
    (GstPlay.bus_sync_handler host is_prepare_window_handle src st).2
  | AdapterCall.new_pad_cb pad, st => GstPlay.new_pad_cb pad st
  | AdapterCall.run_pipeline host eng loop s state, st =>
    (gstreamer_run_pipeline host eng loop s state st).2
  | AdapterCall.destroy_pipeline, st => gstreamer_destroy_pipeline st
  | AdapterCall.add_pipeline_destroyed_cb cb_func user_data, st =>
    gstreamer_add_pipeline_destroyed_cb cb_func user_data st
  | AdapterCall.play, st => gstreamer_play st
  | AdapterCall.pause, st => gstreamer_pause st
  | AdapterCall.seek_to_time time_nanoseconds, st => gstreamer_seek_to_time time_nanoseconds st
  | AdapterCall.seek_to_time_cb, st => (GstPlay.seek_to_time_cb st).2
  | AdapterCall.suspend_pipeline eng, st => gstreamer_suspend_pipeline eng st
  | AdapterCall.restart_pipeline host eng, st => gstreamer_restart_pipeline host eng st
  | AdapterCall.inform_playbin_used status, st => gstreamer_inform_playbin_used status st
  | AdapterCall.set_volume volume, st => gstreamer_set_volume volume st
  | AdapterCall.prepare_color_balance eng r_uninit, st =>
    (gstreamer_prepare_color_balance eng r_uninit st).2
  | AdapterCall.set_color_balance eng channel value, st =>
    gstreamer_set_color_balance eng channel value st
  | AdapterCall.set_default_settings host eng r_uninit, st =>
    gstreamer_set_default_settings host eng r_uninit st

/-- Whether a call is a seek or a run of a pipeline: `gstreamer_seek_to_time`,
`gstreamer_run_pipeline`, and the two functions that call them, `seek_to_time_cb` and
`gstreamer_restart_pipeline`. -/
def AdapterCall.seeks_or_runs : AdapterCall → Bool
  | AdapterCall.run_pipeline _ _ _ _ _ => true
  | AdapterCall.seek_to_time _ => true
  | AdapterCall.seek_to_time_cb => true
  | AdapterCall.restart_pipeline _ _ => true
  | _ => false

/-- The state after a sequence of calls, first call first. -/
def apply_calls : List AdapterCall → State → State
  | [], st => st
  | call :: rest, st => apply_calls rest (call.apply st)

/-! ## Lifecycle theorems -/

theorem no_pipeline_iff (st : State) :
    gstreamer_no_pipeline st = true ↔ st.pipeline_description = "" := by
  unfold gstreamer_no_pipeline
  rw [beq_iff_eq]
  constructor
  · intro h
    have hd : st.pipeline_description.data = [] := List.length_eq_zero.mp h
    exact String.ext hd
  · intro h
    rw [h]
    rfl

theorem run_pipeline_success (host : Host) (eng : Engine) (loop : GMainLoop) (s : String)
    (state : StartupState) (st : State) (p : GstElement) (hp : eng.gst_parse_launch s = some p) :
    (gstreamer_run_pipeline host eng loop s state st).1 = true ∧
      (gstreamer_run_pipeline host eng loop s state st).2.pipeline_description = s ∧
      (gstreamer_run_pipeline host eng loop s state st).2.pipeline = some p := by
  simp [gstreamer_run_pipeline, hp]

theorem destroy_pipeline_description (st : State) :
    (gstreamer_destroy_pipeline st).pipeline_description = "" := rfl

/-- C1: for every sequence of run, destroy pairs whose descriptions are non-empty and
parsed by the engine, each run returns TRUE, after it the description accessor returns the
description passed and `gstreamer_no_pipeline` is false, and after the following destroy the
accessor returns the empty string and `gstreamer_no_pipeline` is true. -/
theorem C1_run_destroy_description (steps : List RunRequest) (st : State)
    (h : ∀ r ∈ steps, r.s ≠ "" ∧ (r.eng.gst_parse_launch r.s).isSome = true) :
    run_destroy_pairs steps st =
      steps.map (fun r =>
        { run_result := true
          description_after_run := r.s
          no_pipeline_after_run := false
          description_after_destroy := ""
          no_pipeline_after_destroy := true }) := by
  induction steps generalizing st with
  | nil => rfl
  | cons r rest ih =>
    have hr := h r (List.mem_cons_self r rest)
    obtain ⟨p, hp⟩ := Option.isSome_iff_exists.mp hr.2
    have hrun := run_pipeline_success r.host r.eng r.loop r.s r.state st p hp
    have hno : gstreamer_no_pipeline
        (gstreamer_run_pipeline r.host r.eng r.loop r.s r.state st).2 = false := by
      rw [Bool.eq_false_iff]
      intro hc
      rw [no_pipeline_iff, hrun.2.1] at hc
      exact hr.1 hc
    have hno2 : gstreamer_no_pipeline (gstreamer_destroy_pipeline
        (gstreamer_run_pipeline r.host r.eng r.loop r.s r.state st).2) = true := by
      rw [no_pipeline_iff]
      rfl
    simp only [run_destroy_pairs, List.map_cons, gstreamer_get_pipeline_description]
    rw [ih _ (fun q hq => h q (List.mem_cons_of_mem r hq)), hrun.1, hrun.2.1, hno, hno2,
      destroy_pipeline_description]

/-- Witness for C1: two run, destroy pairs from the start state. -/
theorem C1_run_destroy_description_witness :
    run_destroy_pairs
        [⟨sample_host, sample_engine, 3, "playbin uri=file:///a.ogg", StartupState.STARTUP_PLAYING⟩,
         ⟨sample_host, sample_engine, 3, "videotestsrc ! autovideosink", StartupState.STARTUP_PAUSED⟩]
        start_state =
      [⟨true, "playbin uri=file:///a.ogg", false, "", true⟩,
       ⟨true, "videotestsrc ! autovideosink", false, "", true⟩] :=
  C1_run_destroy_description _ start_state (by
    intro r hr
    simp only [List.mem_cons, List.mem_singleton, List.not_mem_nil, or_false] at hr
    rcases hr with rfl | rfl <;> exact ⟨by decide, by simp [sample_engine]⟩)

theorem destroy_keeps_callback_list (st : State) :
    (gstreamer_destroy_pipeline st).inform_pipeline_destroyed_cb_list =
      st.inform_pipeline_destroyed_cb_list := rfl

/-- C2: with two callbacks registered on a live pipeline, `gstreamer_destroy_pipeline`
invokes both once, in registration order, but `inform_pipeline_destroyed_cb_list` still
designates the two released cells afterwards, and a second destroy walks them again. -/
theorem C2_destroy_leaves_callback_list :
    invoked_closures (effects_since
        (gstreamer_add_pipeline_destroyed_cb 12 0
          (gstreamer_add_pipeline_destroyed_cb 11 0 live_state))
        (gstreamer_destroy_pipeline (gstreamer_add_pipeline_destroyed_cb 12 0
          (gstreamer_add_pipeline_destroyed_cb 11 0 live_state)))) = [⟨11, 0⟩, ⟨12, 0⟩] ∧
      (gstreamer_destroy_pipeline (gstreamer_add_pipeline_destroyed_cb 12 0
        (gstreamer_add_pipeline_destroyed_cb 11 0 live_state))).inform_pipeline_destroyed_cb_list
        = [⟨11, 0⟩, ⟨12, 0⟩] ∧
      invoked_closures (effects_since
        (gstreamer_destroy_pipeline (gstreamer_add_pipeline_destroyed_cb 12 0
          (gstreamer_add_pipeline_destroyed_cb 11 0 live_state)))
        (gstreamer_destroy_pipeline (gstreamer_destroy_pipeline
          (gstreamer_add_pipeline_destroyed_cb 12 0
            (gstreamer_add_pipeline_destroyed_cb 11 0 live_state))))) = [⟨11, 0⟩, ⟨12, 0⟩] := by
  refine ⟨?_, ?_, ?_⟩ <;> decide

/-- C3, as stated, fails: a run with a rejected description on a live pipeline returns FALSE
and leaves the global `pipeline` at `NULL` instead of the prior handle. -/
theorem C3_failed_run_overwrites_handle :
    sample_engine.gst_parse_launch "!!" = none ∧
      live_state.pipeline = some 7 ∧
      (gstreamer_run_pipeline sample_host sample_engine 3 "!!" StartupState.STARTUP_PLAYING
        live_state).1 = false ∧
      (gstreamer_run_pipeline sample_host sample_engine 3 "!!" StartupState.STARTUP_PLAYING
        live_state).2.pipeline = none := by
  refine ⟨?_, ?_, ?_, ?_⟩ <;> decide

/-- C3, amended: when the engine rejects the description, `gstreamer_run_pipeline` returns
FALSE and leaves the description (so `gstreamer_no_pipeline` answers as before), the
`end_of_stream` flag, the callback list and every other variable apart from the global
`pipeline` as they were; the global `pipeline` holds the `NULL` of the failed parse. -/
theorem C3_failed_run_frame (host : Host) (eng : Engine) (loop : GMainLoop) (s : String)
    (state : StartupState) (st : State) (h : eng.gst_parse_launch s = none) :
    (gstreamer_run_pipeline host eng loop s state st).1 = false ∧
      (gstreamer_run_pipeline host eng loop s state st).2.pipeline = none ∧
      gstreamer_no_pipeline (gstreamer_run_pipeline host eng loop s state st).2
        = gstreamer_no_pipeline st ∧
      (gstreamer_run_pipeline host eng loop s state st).2.pipeline_description
        = st.pipeline_description ∧
      (gstreamer_run_pipeline host eng loop s state st).2.end_of_stream = st.end_of_stream ∧
      (gstreamer_run_pipeline host eng loop s state st).2.inform_pipeline_destroyed_cb_list
        = st.inform_pipeline_destroyed_cb_list ∧
      { (gstreamer_run_pipeline host eng loop s state st).2 with
        pipeline := st.pipeline, trace := st.trace } = st := by
  simp [gstreamer_run_pipeline, h, gstreamer_no_pipeline]

/-- Witness for C3, amended: the description `"!!"` on the live sample pipeline. -/
theorem C3_failed_run_frame_witness :
    (gstreamer_run_pipeline sample_host sample_engine 3 "!!" StartupState.STARTUP_PAUSED
        live_state).1 = false ∧
      gstreamer_no_pipeline (gstreamer_run_pipeline sample_host sample_engine 3 "!!"
        StartupState.STARTUP_PAUSED live_state).2 = gstreamer_no_pipeline live_state :=
  have h := C3_failed_run_frame sample_host sample_engine 3 "!!" StartupState.STARTUP_PAUSED
    live_state (by decide)
  ⟨h.1, h.2.2.1⟩

/-! ## Colour-balance theorems -/

theorem round_half_even_intCast (n : Int) : round_half_even (n : ℚ) = n := by
  simp [round_half_even]

theorem abs_round_half_even_sub_le (r : ℚ) : |(round_half_even r : ℚ) - r| ≤ 1 / 2 := by
  have h1 := Int.floor_le r
  have h2 := Int.lt_floor_add_one r
  unfold round_half_even
  split_ifs with ha hb hc
  · rw [abs_le]; constructor <;> linarith
  · push_cast; rw [abs_le]; constructor <;> linarith
  · rw [abs_le]; constructor <;> linarith
  · push_cast; rw [abs_le]; constructor <;> linarith

theorem round_half_even_le (r : ℚ) (n : Int) (h : r ≤ n) : round_half_even r ≤ n := by
  have h1 := Int.floor_le r
  have hf : ⌊r⌋ ≤ n := by exact_mod_cast le_trans h1 h
  have hstep : ¬ (r - ⌊r⌋ < 1 / 2) → ⌊r⌋ + 1 ≤ n := by
    intro hfrac
    by_contra hn
    have heq : ⌊r⌋ = n := by omega
    rw [heq] at hfrac
    apply hfrac
    linarith
  unfold round_half_even
  split_ifs with ha hb hc
  · exact hf
  · exact hstep ha
  · exact hf
  · exact hstep ha

theorem le_round_half_even (r : ℚ) (n : Int) (h : (n : ℚ) ≤ r) : n ≤ round_half_even r := by
  have hf : n ≤ ⌊r⌋ := Int.le_floor.mpr h
  unfold round_half_even
  split_ifs <;> omega

theorem round_half_even_eq (r : ℚ) (m : Int) (h : |r - m| < 1 / 2) : round_half_even r = m := by
  rw [abs_lt] at h
  have hb := abs_round_half_even_sub_le r
  rw [abs_le] at hb
  have h1 : ((round_half_even r : Int) : ℚ) - m < 1 := by linarith
  have h2 : (-1 : ℚ) < ((round_half_even r : Int) : ℚ) - m := by linarith
  have h3 : round_half_even r - m < 1 := by exact_mod_cast h1
  have h4 : -1 < round_half_even r - m := by exact_mod_cast h2
  omega

theorem two_zpow_pos (u : Int) : (0 : ℚ) < 2 ^ u := zpow_pos (by norm_num) u

theorem scaled_sub (q : ℚ) (u : Int) (m : ℚ) :
    m * 2 ^ u - q = (m - q / 2 ^ u) * 2 ^ u := by
  have hpos := two_zpow_pos u
  field_simp

theorem ulp_exponent_le (q : ℚ) (e : Int) (he : 0 ≤ e) (hq : |q| < 2 ^ (e + 1)) :
    ulp_exponent q ≤ max (e - 52) (-1074) := by
  unfold ulp_exponent
  apply max_le_max _ le_rfl
  by_cases h0 : q = 0
  · rw [h0, abs_zero, Int.log_zero_right]
    omega
  · have hpos : 0 < |q| := abs_pos.mpr h0
    have hlog : Int.log 2 |q| < e + 1 := by
      rw [← Int.lt_zpow_iff_log_lt (by norm_num) hpos]
      exact_mod_cast hq
    omega

theorem round_double_err (q : ℚ) (e : Int) (he : 0 ≤ e) (he2 : e ≤ 1000)
    (hq : |q| < 2 ^ (e + 1)) :
    ∃ r, round_double q = some r ∧ |r - q| ≤ 2 ^ (max (e - 52) (-1074) - 1) := by
  have hu := ulp_exponent_le q e he hq
  have hpos := two_zpow_pos (ulp_exponent q)
  have herr : |(round_half_even (q / 2 ^ ulp_exponent q) : ℚ) * 2 ^ ulp_exponent q - q|
      ≤ 2 ^ (max (e - 52) (-1074) - 1) := by
    have h1 : (round_half_even (q / 2 ^ ulp_exponent q) : ℚ) * 2 ^ ulp_exponent q - q
        = ((round_half_even (q / 2 ^ ulp_exponent q) : ℚ) - q / 2 ^ ulp_exponent q)
          * 2 ^ ulp_exponent q := scaled_sub q (ulp_exponent q) _
    rw [h1, abs_mul, abs_of_pos hpos]
    have h2 := abs_round_half_even_sub_le (q / 2 ^ ulp_exponent q)
    have h3 : (2 : ℚ) ^ ulp_exponent q ≤ 2 ^ max (e - 52) (-1074) :=
      zpow_le_zpow_right₀ (by norm_num) hu
    have h4 : (2 : ℚ) ^ (max (e - 52) (-1074) - 1) = 1 / 2 * 2 ^ max (e - 52) (-1074) := by
      rw [zpow_sub_one₀ (by norm_num)]
      ring
    rw [h4]
    exact mul_le_mul h2 h3 hpos.le (by norm_num)
  refine ⟨_, ?_, herr⟩
  unfold round_double
  simp only
  rw [if_neg]
  rw [not_le]
  have h5 : |(round_half_even (q / 2 ^ ulp_exponent q) : ℚ) * 2 ^ ulp_exponent q|
      ≤ |q| + 2 ^ (max (e - 52) (-1074) - 1) := by
    have := abs_sub_abs_le_abs_sub
      ((round_half_even (q / 2 ^ ulp_exponent q) : ℚ) * 2 ^ ulp_exponent q) q
    linarith
  have h6 : (2 : ℚ) ^ (max (e - 52) (-1074) - 1) ≤ 2 ^ (1001 : Int) :=
    zpow_le_zpow_right₀ (by norm_num) (by omega)
  have h7 : (2 : ℚ) ^ (e + 1) ≤ 2 ^ (1001 : Int) :=
    zpow_le_zpow_right₀ (by norm_num) (by omega)
  have h8 : (2 : ℚ) ^ (1001 : Int) + 2 ^ (1001 : Int) < 2 ^ 1024 := by
    norm_num
  linarith

theorem round_double_some (q r : ℚ) (h : round_double q = some r) :
    r = (round_half_even (q / 2 ^ ulp_exponent q) : ℚ) * 2 ^ ulp_exponent q := by
  unfold round_double at h
  simp only at h
  split at h
  · exact absurd h (by simp)
  · exact (Option.some.inj h).symm

theorem int_div_two_zpow (N u : Int) (hu : u ≤ 0) :
    ((N * 2 ^ (-u).toNat : Int) : ℚ) = N / 2 ^ u := by
  have hu' : u = -((-u).toNat : Int) := by
    rw [Int.toNat_of_nonneg (by omega)]
    ring
  have h2 : (2 : ℚ) ^ u = ((2 : ℚ) ^ (-u).toNat)⁻¹ := by
    nth_rewrite 1 [hu']
    rw [zpow_neg, zpow_natCast]
  rw [h2]
  push_cast
  rw [div_inv_eq_mul]

theorem round_double_le_int (q r : ℚ) (N : Int) (hq : |q| < 2 ^ (53 : Int))
    (hr : round_double q = some r) (h : q ≤ N) : r ≤ N := by
  have hu : ulp_exponent q ≤ 0 := by
    have := ulp_exponent_le q 52 (by norm_num) (by exact_mod_cast hq)
    simpa using this
  have hpos := two_zpow_pos (ulp_exponent q)
  rw [round_double_some q r hr]
  have hdiv : q / 2 ^ ulp_exponent q ≤ ((N * 2 ^ (-ulp_exponent q).toNat : Int) : ℚ) := by
    rw [int_div_two_zpow N _ hu]
    exact div_le_div_of_nonneg_right h hpos.le
  have hm := round_half_even_le _ _ hdiv
  have hm' : (round_half_even (q / 2 ^ ulp_exponent q) : ℚ)
      ≤ ((N * 2 ^ (-ulp_exponent q).toNat : Int) : ℚ) := by exact_mod_cast hm
  rw [int_div_two_zpow N _ hu] at hm'
  calc (round_half_even (q / 2 ^ ulp_exponent q) : ℚ) * 2 ^ ulp_exponent q
      ≤ (N : ℚ) / 2 ^ ulp_exponent q * 2 ^ ulp_exponent q :=
        mul_le_mul_of_nonneg_right hm' hpos.le
    _ = N := by field_simp

theorem int_le_round_double (q r : ℚ) (N : Int) (hq : |q| < 2 ^ (53 : Int))
    (hr : round_double q = some r) (h : (N : ℚ) ≤ q) : (N : ℚ) ≤ r := by
  have hu : ulp_exponent q ≤ 0 := by
    have := ulp_exponent_le q 52 (by norm_num) (by exact_mod_cast hq)
    simpa using this
  have hpos := two_zpow_pos (ulp_exponent q)
  rw [round_double_some q r hr]
  have hdiv : ((N * 2 ^ (-ulp_exponent q).toNat : Int) : ℚ) ≤ q / 2 ^ ulp_exponent q := by
    rw [int_div_two_zpow N _ hu]
    exact div_le_div_of_nonneg_right h hpos.le
  have hm := le_round_half_even _ _ hdiv
  have hm' : ((N * 2 ^ (-ulp_exponent q).toNat : Int) : ℚ)
      ≤ (round_half_even (q / 2 ^ ulp_exponent q) : ℚ) := by exact_mod_cast hm
  rw [int_div_two_zpow N _ hu] at hm'
  calc (N : ℚ) = (N : ℚ) / 2 ^ ulp_exponent q * 2 ^ ulp_exponent q := by field_simp
    _ ≤ (round_half_even (q / 2 ^ ulp_exponent q) : ℚ) * 2 ^ ulp_exponent q :=
        mul_le_mul_of_nonneg_right hm' hpos.le

theorem round_double_intCast (n : Int) (hn : |(n : ℚ)| < 2 ^ (53 : Int)) :
    round_double (n : ℚ) = some (n : ℚ) := by
  obtain ⟨r, hr, _⟩ := round_double_err (n : ℚ) 52 (by norm_num) (by norm_num)
    (by exact_mod_cast hn)
  have h1 := round_double_le_int _ r n hn hr le_rfl
  have h2 := int_le_round_double _ r n hn hr le_rfl
  rw [hr, le_antisymm h1 h2]

theorem round_double_eq (q : ℚ) (e m : Int) (hlo : 2 ^ e ≤ |q|) (hhi : |q| < 2 ^ (e + 1))
    (he : -1022 ≤ e) (hm : |q / 2 ^ (e - 52) - m| < 1 / 2)
    (hov : |(m : ℚ) * 2 ^ (e - 52)| < 2 ^ 1024) :
    round_double q = some ((m : ℚ) * 2 ^ (e - 52)) := by
  have hpos : 0 < |q| := lt_of_lt_of_le (two_zpow_pos e) hlo
  have hlog : Int.log 2 |q| = e := by
    have h1 : e ≤ Int.log 2 |q| := by
      rw [← Int.zpow_le_iff_le_log (by norm_num) hpos]
      exact_mod_cast hlo
    have h2 : Int.log 2 |q| < e + 1 := by
      rw [← Int.lt_zpow_iff_log_lt (by norm_num) hpos]
      exact_mod_cast hhi
    omega
  have hu : ulp_exponent q = e - 52 := by
    unfold ulp_exponent
    rw [hlog]
    exact max_eq_left (by omega)
  unfold round_double
  simp only
  rw [hu, round_half_even_eq _ m hm, if_neg (not_le.mpr hov)]

theorem wrap_gint_eq (n : Int) (hlo : -2 ^ 31 ≤ n) (hhi : n < 2 ^ 31) : wrap_gint n = n := by
  unfold wrap_gint
  norm_num at hlo hhi ⊢
  omega


theorem mul_literal_bounds (x : gdouble) (hx0 : 0 ≤ x) (hx1 : x ≤ 100) :
    ∃ a, round_double (x * double_0_01) = some a ∧ 0 ≤ a ∧ a ≤ 1 ∧
      |a - x / 100| ≤ 1 / 2 ^ 52 := by
  have hc0 : (0 : ℚ) < double_0_01 := by norm_num [double_0_01]
  have hq0 : 0 ≤ x * double_0_01 := mul_nonneg hx0 hc0.le
  have hq1 : x * double_0_01 ≤ 100 * double_0_01 := mul_le_mul_of_nonneg_right hx1 hc0.le
  have h100 : 100 * double_0_01 = 1 + 12 / 2 ^ 59 := by norm_num [double_0_01]
  have habs : |x * double_0_01| = x * double_0_01 := abs_of_nonneg hq0
  have hlt2 : |x * double_0_01| < 2 ^ ((0 : Int) + 1) := by
    rw [habs]
    have : x * double_0_01 < 2 := by rw [h100] at hq1; norm_num at hq1 ⊢; linarith
    simpa using this
  obtain ⟨a, ha, herr⟩ := round_double_err (x * double_0_01) 0 le_rfl (by norm_num) hlt2
  have herr' : |a - x * double_0_01| ≤ 1 / 2 ^ 53 := by
    have h53 : (2 : ℚ) ^ (max ((0 : Int) - 52) (-1074) - 1) = 1 / 2 ^ 53 := by norm_num
    rw [h53] at herr
    exact herr
  have hlt53 : |x * double_0_01| < 2 ^ (53 : Int) := by
    have : (2 : ℚ) ^ ((0 : Int) + 1) ≤ 2 ^ (53 : Int) := by norm_num
    exact lt_of_lt_of_le hlt2 this
  refine ⟨a, ha, ?_, ?_, ?_⟩
  · have := int_le_round_double _ a 0 hlt53 ha (by simpa using hq0)
    simpa using this
  · by_cases h1 : x * double_0_01 ≤ 1
    · have := round_double_le_int _ a 1 hlt53 ha (by simpa using h1)
      simpa using this
    · rw [not_le] at h1
      have hone : round_double (x * double_0_01) = some (((2 ^ 52 : Int) : ℚ) * 2 ^ ((0 : Int) - 52)) := by
        apply round_double_eq _ 0 (2 ^ 52)
        · rw [habs]; simpa using h1.le
        · exact hlt2
        · norm_num
        · rw [abs_lt]
          rw [h100] at hq1
          norm_num
          norm_num at hq1 h1
          constructor <;> linarith
        · norm_num
      rw [hone] at ha
      have hval : (((2 ^ 52 : Int) : ℚ) * 2 ^ ((0 : Int) - 52)) = 1 := by norm_num
      rw [hval] at ha
      rw [← Option.some.inj ha]
  · have hdiff : |x * double_0_01 - x / 100| ≤ 1 / 2 ^ 53 := by
      have : x * double_0_01 - x / 100 = x * (12 / 2 ^ 59 / 100) := by
        norm_num [double_0_01]
        ring
      rw [this, abs_of_nonneg (mul_nonneg hx0 (by norm_num))]
      have : x * (12 / 2 ^ 59 / 100) ≤ 100 * (12 / 2 ^ 59 / 100) :=
        mul_le_mul_of_nonneg_right hx1 (by norm_num)
      norm_num at this ⊢
      linarith
    have htri : |a - x / 100| ≤ |a - x * double_0_01| + |x * double_0_01 - x / 100| := by
      have := abs_sub_le a (x * double_0_01) (x / 100)
      exact this
    have : (1 : ℚ) / 2 ^ 53 + 1 / 2 ^ 53 = 1 / 2 ^ 52 := by norm_num
    linarith

theorem native_value_spec (c : GstColorBalanceChannel) (x : gdouble)
    (hmin : -2 ^ 31 ≤ c.min_value) (hmax : c.max_value < 2 ^ 31)
    (hrange : c.min_value < c.max_value) (hwidth : c.max_value - c.min_value < 2 ^ 31)
    (hx0 : 0 ≤ x) (hx1 : x ≤ 100) :
    ∃ s : ℚ, native_value c x = double_to_gint (some s) ∧
      (c.min_value : ℚ) ≤ s ∧ s ≤ (c.max_value : ℚ) ∧
      |s - ((c.min_value : ℚ) + x * ((c.max_value - c.min_value : Int) : ℚ) / 100)|
        ≤ 1 / 2 ^ 20 := by
  have hwrap : wrap_gint (c.max_value - c.min_value) = c.max_value - c.min_value :=
    wrap_gint_eq _ (by omega) hwidth
  obtain ⟨a, ha, ha0, ha1, haerr⟩ := mul_literal_bounds x hx0 hx1
  generalize hR : c.max_value - c.min_value = R at *
  have hR0 : (0 : ℚ) < (R : ℚ) := by exact_mod_cast (show (0 : Int) < R by omega)
  have hR1 : (R : ℚ) < 2 ^ 31 := by exact_mod_cast hwidth
  have hminQ : (-2 ^ 31 : ℚ) ≤ (c.min_value : ℚ) := by exact_mod_cast hmin
  have hmaxQ : (c.max_value : ℚ) < 2 ^ 31 := by exact_mod_cast hmax
  have hmaxR : (c.max_value : ℚ) = (c.min_value : ℚ) + (R : ℚ) := by
    rw [← hR]; push_cast; ring
  -- the product with the range
  have hq2lo : 0 ≤ a * (R : ℚ) := mul_nonneg ha0 hR0.le
  have hq2hi : a * (R : ℚ) ≤ (R : ℚ) := by
    have := mul_le_mul_of_nonneg_right ha1 hR0.le
    linarith
  have hq2abs : |a * (R : ℚ)| < 2 ^ ((30 : Int) + 1) := by
    rw [abs_of_nonneg hq2lo]
    have : ((2 : ℚ) ^ ((30 : Int) + 1)) = 2 ^ 31 := by norm_num
    rw [this]
    linarith
  obtain ⟨b, hb, hberr⟩ := round_double_err (a * (R : ℚ)) 30 (by norm_num) (by norm_num) hq2abs
  have hberr' : |b - a * (R : ℚ)| ≤ 1 / 2 ^ 23 := by
    have h : (2 : ℚ) ^ (max ((30 : Int) - 52) (-1074) - 1) = 1 / 2 ^ 23 := by norm_num
    rw [h] at hberr
    exact hberr
  have hq2lt53 : |a * (R : ℚ)| < 2 ^ (53 : Int) :=
    lt_of_lt_of_le hq2abs (by norm_num)
  have hb0 : 0 ≤ b := by
    have := int_le_round_double _ b 0 hq2lt53 hb (by simpa using hq2lo)
    simpa using this
  have hb1 : b ≤ (R : ℚ) := round_double_le_int _ b R hq2lt53 hb hq2hi
  -- the sum with the minimum
  have hq3lo : (c.min_value : ℚ) ≤ (c.min_value : ℚ) + b := by linarith
  have hq3hi : (c.min_value : ℚ) + b ≤ (c.max_value : ℚ) := by rw [hmaxR]; linarith
  have hq3abs : |(c.min_value : ℚ) + b| < 2 ^ ((31 : Int) + 1) := by
    have : ((2 : ℚ) ^ ((31 : Int) + 1)) = 2 ^ 32 := by norm_num
    rw [this, abs_lt]
    constructor <;> norm_num at hminQ hmaxQ ⊢ <;> linarith
  obtain ⟨s, hs, hserr⟩ := round_double_err ((c.min_value : ℚ) + b) 31 (by norm_num)
    (by norm_num) hq3abs
  have hserr' : |s - ((c.min_value : ℚ) + b)| ≤ 1 / 2 ^ 22 := by
    have h : (2 : ℚ) ^ (max ((31 : Int) - 52) (-1074) - 1) = 1 / 2 ^ 22 := by norm_num
    rw [h] at hserr
    exact hserr
  have hq3lt53 : |(c.min_value : ℚ) + b| < 2 ^ (53 : Int) :=
    lt_of_lt_of_le hq3abs (by norm_num)
  refine ⟨s, ?_, int_le_round_double _ s _ hq3lt53 hs hq3lo,
    round_double_le_int _ s _ hq3lt53 hs hq3hi, ?_⟩
  · simp only [native_value, double_mul, double_add, hR, hwrap, ha, hb, hs]
  · -- accumulated error
    have h1 : |a * (R : ℚ) - x * (R : ℚ) / 100| ≤ 1 / 2 ^ 52 * 2 ^ 31 := by
      have : a * (R : ℚ) - x * (R : ℚ) / 100 = (a - x / 100) * (R : ℚ) := by ring
      rw [this, abs_mul, abs_of_pos hR0]
      exact mul_le_mul haerr hR1.le hR0.le (by norm_num)
    have h2 : s - ((c.min_value : ℚ) + x * (R : ℚ) / 100)
        = (s - ((c.min_value : ℚ) + b)) + (b - a * (R : ℚ))
          + (a * (R : ℚ) - x * (R : ℚ) / 100) := by ring
    rw [h2]
    have t1 := abs_add (s - ((c.min_value : ℚ) + b) + (b - a * (R : ℚ)))
      (a * (R : ℚ) - x * (R : ℚ) / 100)
    have t2 := abs_add (s - ((c.min_value : ℚ) + b)) (b - a * (R : ℚ))
    have hnum : (1 : ℚ) / 2 ^ 22 + 1 / 2 ^ 23 + 1 / 2 ^ 52 * 2 ^ 31 ≤ 1 / 2 ^ 20 := by norm_num
    linarith

theorem double_to_gint_bounds (s : ℚ) (lo hi : Int) (hlo : -2 ^ 31 ≤ lo) (hhi : hi < 2 ^ 31)
    (h1 : (lo : ℚ) ≤ s) (h2 : s ≤ (hi : ℚ)) :
    lo ≤ double_to_gint (some s) ∧ double_to_gint (some s) ≤ hi ∧
      |((double_to_gint (some s) : Int) : ℚ) - s| < 1 := by
  have hloQ : (-2 ^ 31 : ℚ) ≤ (lo : ℚ) := by exact_mod_cast hlo
  have hhiQ : (hi : ℚ) < 2 ^ 31 := by exact_mod_cast hhi
  have hin : -2 ^ 31 - 1 < s ∧ s < 2 ^ 31 := by
    constructor <;> linarith
  unfold double_to_gint
  simp only [hin, and_self, if_true]
  have f1 := Int.floor_le s
  have f2 := Int.lt_floor_add_one s
  have c1 := Int.le_ceil s
  have c2 := Int.ceil_lt_add_one s
  split_ifs with h0
  · refine ⟨Int.le_floor.mpr h1, ?_, ?_⟩
    · exact_mod_cast le_trans f1 h2
    · rw [abs_lt]; constructor <;> linarith
  · refine ⟨?_, Int.ceil_le.mpr h2, ?_⟩
    · exact_mod_cast le_trans h1 c1
    · rw [abs_lt]; constructor <;> linarith

theorem normalized_value_spec (c : GstColorBalanceChannel) (v : Int)
    (hrange : c.min_value < c.max_value) (hwidth : c.max_value - c.min_value < 2 ^ 31)
    (hv0 : c.min_value ≤ v) (hv1 : v ≤ c.max_value) :
    ∃ y : ℚ, normalized_value c v = some y ∧
      |y - ((v - c.min_value : Int) : ℚ) * 100 / ((c.max_value - c.min_value : Int) : ℚ)|
        ≤ 1 / 2 ^ 47 := by
  have hwrap : wrap_gint (c.max_value - c.min_value) = c.max_value - c.min_value :=
    wrap_gint_eq _ (by omega) hwidth
  simp only [normalized_value, hwrap]
  have hR0 : (0 : ℚ) < ((c.max_value - c.min_value : Int) : ℚ) := by
    exact_mod_cast (show (0 : Int) < c.max_value - c.min_value by omega)
  have hk0 : (0 : ℚ) ≤ ((v - c.min_value : Int) : ℚ) := by
    exact_mod_cast (show (0 : Int) ≤ v - c.min_value by omega)
  have hk1 : ((v - c.min_value : Int) : ℚ) ≤ ((c.max_value - c.min_value : Int) : ℚ) := by
    exact_mod_cast (show v - c.min_value ≤ c.max_value - c.min_value by omega)
  have hkw : ((v - c.min_value : Int) : ℚ) < 2 ^ 31 := by
    exact_mod_cast (show v - c.min_value < 2 ^ 31 by omega)
  have hsub : (v : ℚ) - (c.min_value : ℚ) = ((v - c.min_value : Int) : ℚ) := by
    rw [Int.cast_sub]
  have hcast : ((v - c.min_value : Int) : ℚ) * 100 = (((v - c.min_value) * 100 : Int) : ℚ) := by
    rw [Int.cast_mul]
    norm_num
  have hd1 : round_double ((v : ℚ) - (c.min_value : ℚ)) = some ((v - c.min_value : Int) : ℚ) := by
    rw [hsub]
    apply round_double_intCast
    rw [abs_of_nonneg hk0]
    have : (2 : ℚ) ^ 31 ≤ 2 ^ (53 : Int) := by norm_num
    linarith
  have hd2 : round_double (((v - c.min_value : Int) : ℚ) * 100)
      = some (((v - c.min_value : Int) : ℚ) * 100) := by
    rw [hcast]
    apply round_double_intCast
    rw [← hcast, abs_of_nonneg (mul_nonneg hk0 (by norm_num))]
    have : (2 : ℚ) ^ 31 * 100 ≤ 2 ^ (53 : Int) := by norm_num
    linarith
  generalize ((v - c.min_value : Int) : ℚ) = K at *
  generalize ((c.max_value - c.min_value : Int) : ℚ) = RQ at *
  have hq : |K * 100 / RQ| < 2 ^ ((6 : Int) + 1) := by
    have hnn : 0 ≤ K * 100 / RQ := div_nonneg (mul_nonneg hk0 (by norm_num)) hR0.le
    have hle : K * 100 / RQ ≤ 100 := by
      rw [div_le_iff₀ hR0]
      linarith
    rw [abs_of_nonneg hnn]
    have : ((2 : ℚ) ^ ((6 : Int) + 1)) = 128 := by norm_num
    rw [this]
    linarith
  obtain ⟨y, hy, hyerr⟩ := round_double_err _ 6 (by norm_num) (by norm_num) hq
  have hyerr' : |y - K * 100 / RQ| ≤ 1 / 2 ^ 47 := by
    have h : (2 : ℚ) ^ (max ((6 : Int) - 52) (-1074) - 1) = 1 / 2 ^ 47 := by norm_num
    rw [h] at hyerr
    exact hyerr
  refine ⟨y, ?_, hyerr'⟩
  simp only [double_sub, double_mul, double_div, hd1, hd2, if_neg hR0.ne', hy]

theorem set_get_bound (c : GstColorBalanceChannel) (x : gdouble)
    (hmin : -2 ^ 31 ≤ c.min_value) (hmax : c.max_value < 2 ^ 31)
    (hrange : c.min_value < c.max_value) (hwidth : c.max_value - c.min_value < 2 ^ 31)
    (hx0 : 0 ≤ x) (hx1 : x ≤ 100) :
    c.min_value ≤ native_value c x ∧ native_value c x ≤ c.max_value ∧
      ∃ y : ℚ, normalized_value c (native_value c x) = some y ∧
        |y - x| < 101 / ((c.max_value - c.min_value : Int) : ℚ) := by
  obtain ⟨s, hs, hs0, hs1, hserr⟩ := native_value_spec c x hmin hmax hrange hwidth hx0 hx1
  obtain ⟨hv0, hv1, hverr⟩ := double_to_gint_bounds s _ _ hmin hmax hs0 hs1
  rw [← hs] at hv0 hv1 hverr
  obtain ⟨y, hy, hyerr⟩ := normalized_value_spec c (native_value c x) hrange hwidth hv0 hv1
  refine ⟨hv0, hv1, y, hy, ?_⟩
  generalize native_value c x = v at *
  generalize hR : c.max_value - c.min_value = R at *
  have hR0 : (0 : ℚ) < (R : ℚ) := by exact_mod_cast (show (0 : Int) < R by omega)
  have hR1 : (R : ℚ) < 2 ^ 31 := by exact_mod_cast hwidth
  -- distance of the native step count to the exact one
  have hk : |((v - c.min_value : Int) : ℚ) - x * (R : ℚ) / 100| < 1 + 1 / 2 ^ 20 := by
    have h2 : ((v - c.min_value : Int) : ℚ) - x * (R : ℚ) / 100
        = ((v : ℚ) - s) + (s - ((c.min_value : ℚ) + x * (R : ℚ) / 100)) := by
      push_cast; ring
    rw [h2]
    have := abs_add ((v : ℚ) - s) (s - ((c.min_value : ℚ) + x * (R : ℚ) / 100))
    linarith
  have hscale : ((v - c.min_value : Int) : ℚ) * 100 / (R : ℚ) - x
      = (((v - c.min_value : Int) : ℚ) - x * (R : ℚ) / 100) * (100 / (R : ℚ)) := by
    field_simp
    ring
  have hpos : (0 : ℚ) < 100 / (R : ℚ) := div_pos (by norm_num) hR0
  have h3 : |((v - c.min_value : Int) : ℚ) * 100 / (R : ℚ) - x|
      < (1 + 1 / 2 ^ 20) * (100 / (R : ℚ)) := by
    rw [hscale, abs_mul, abs_of_pos hpos]
    exact mul_lt_mul_of_pos_right hk hpos
  have h4 : |y - x| ≤ |y - ((v - c.min_value : Int) : ℚ) * 100 / (R : ℚ)|
      + |((v - c.min_value : Int) : ℚ) * 100 / (R : ℚ) - x| :=
    abs_sub_le y _ x
  have h5 : (1 : ℚ) / 2 ^ 47 + (1 + 1 / 2 ^ 20) * (100 / (R : ℚ)) ≤ 101 / (R : ℚ) := by
    have hinv : (0 : ℚ) < 1 / (R : ℚ) := div_pos one_pos hR0
    have hone : (R : ℚ) * (1 / (R : ℚ)) = 1 := mul_one_div_cancel hR0.ne'
    have hge : (R : ℚ) * (1 / (R : ℚ)) ≤ 2 ^ 31 * (1 / (R : ℚ)) :=
      mul_le_mul_of_nonneg_right hR1.le hinv.le
    rw [hone] at hge
    rw [div_eq_mul_one_div (100 : ℚ), div_eq_mul_one_div (101 : ℚ)]
    norm_num at hge ⊢
    linarith
  linarith

theorem round_double_eq_value (q r : ℚ) (e m : Int) (hlo : 2 ^ e ≤ |q|) (hhi : |q| < 2 ^ (e + 1))
    (he : -1022 ≤ e) (hm : |q / 2 ^ (e - 52) - m| < 1 / 2)
    (hov : |(m : ℚ) * 2 ^ (e - 52)| < 2 ^ 1024) (hr : r = (m : ℚ) * 2 ^ (e - 52)) :
    round_double q = some r := by
  rw [hr]
  exact round_double_eq q e m hlo hhi he hm hov

theorem double_0_01_is_literal : round_double (1 / 100) = some double_0_01 := by
  apply round_double_eq_value (1 / 100) _ (-7) 5764607523034235
  · norm_num [abs_of_pos]
  · norm_num [abs_of_pos]
  · norm_num
  · norm_num [abs_lt]
  · norm_num [abs_of_pos]
  · norm_num [double_0_01]

theorem round_double_literal_hundred : round_double (100 * double_0_01) = some 1 := by
  apply round_double_eq_value _ _ 0 (2 ^ 52)
  · norm_num [double_0_01, abs_of_pos]
  · norm_num [double_0_01, abs_of_pos]
  · norm_num
  · norm_num [double_0_01, abs_lt]
  · norm_num [abs_of_pos]
  · norm_num

theorem double_mul_some (x y : gdouble) :
    double_mul (some x) (some y) = round_double (x * y) := rfl

theorem double_add_some (x y : gdouble) :
    double_add (some x) (some y) = round_double (x + y) := rfl

theorem double_sub_some (x y : gdouble) :
    double_sub (some x) (some y) = round_double (x - y) := rfl

theorem double_div_some (x y : gdouble) (hy : y ≠ 0) :
    double_div (some x) y = round_double (x / y) := by
  simp only [double_div, if_neg hy]

theorem double_to_gint_out (q : gdouble) (h : ¬ (-2 ^ 31 - 1 < q ∧ q < 2 ^ 31)) :
    double_to_gint (some q) = -2 ^ 31 := by
  simp only [double_to_gint, if_neg h]

theorem double_to_gint_floor (q : gdouble) (h : -2 ^ 31 - 1 < q ∧ q < 2 ^ 31) (h0 : 0 ≤ q) :
    double_to_gint (some q) = ⌊q⌋ := by
  simp only [double_to_gint, if_pos h, if_pos h0]

theorem native_value_percent_29 (c : GstColorBalanceChannel) (hmin : c.min_value = 0)
    (hmax : c.max_value = 100) : native_value c 29 = 28 := by
  have hw : wrap_gint (100 - 0) = 100 := by norm_num [wrap_gint]
  have ha : round_double (29 * double_0_01) = some (5224175567749775 / 18014398509481984) := by
    apply round_double_eq_value _ _ (-2) 5224175567749775
    · norm_num [double_0_01, abs_of_pos]
    · norm_num [double_0_01, abs_of_pos]
    · norm_num
    · norm_num [double_0_01, abs_lt]
    · norm_num [abs_of_pos]
    · norm_num
  have hb : round_double (5224175567749775 / 18014398509481984 * ((100 : Int) : gdouble))
      = some (8162774324609023 / 281474976710656) := by
    apply round_double_eq_value _ _ 4 8162774324609023
    · norm_num [abs_of_pos]
    · norm_num [abs_of_pos]
    · norm_num
    · norm_num [abs_lt]
    · norm_num [abs_of_pos]
    · norm_num
  have hs : round_double (((0 : Int) : gdouble) + 8162774324609023 / 281474976710656)
      = some (8162774324609023 / 281474976710656) := by
    apply round_double_eq_value _ _ 4 8162774324609023
    · norm_num [abs_of_pos]
    · norm_num [abs_of_pos]
    · norm_num
    · norm_num [abs_lt]
    · norm_num [abs_of_pos]
    · norm_num
  have hin : (-2 ^ 31 - 1 : gdouble) < 8162774324609023 / 281474976710656 ∧
      (8162774324609023 / 281474976710656 : gdouble) < 2 ^ 31 := by norm_num
  have h0 : (0 : gdouble) ≤ 8162774324609023 / 281474976710656 := by norm_num
  unfold native_value
  rw [hmin, hmax, hw, double_mul_some, ha, double_mul_some, hb, double_add_some, hs,
    double_to_gint_floor _ hin h0, Int.floor_eq_iff]
  norm_num

theorem normalized_value_percent_28 (c : GstColorBalanceChannel) (hmin : c.min_value = 0)
    (hmax : c.max_value = 100) (v : Int) (hv : v = 28) :
    normalized_value c v = some 28 := by
  have hw : wrap_gint (100 - 0) = 100 := by norm_num [wrap_gint]
  have h1 : round_double (((28 : Int) : gdouble) - ((0 : Int) : gdouble))
      = some ((28 : Int) : gdouble) := by
    have e : ((28 : Int) : gdouble) - ((0 : Int) : gdouble) = ((28 : Int) : gdouble) := by
      norm_num
    rw [e]
    exact round_double_intCast 28 (by norm_num)
  have h2 : round_double (((28 : Int) : gdouble) * 100) = some ((2800 : Int) : gdouble) := by
    have e : ((28 : Int) : gdouble) * 100 = ((2800 : Int) : gdouble) := by norm_num
    rw [e]
    exact round_double_intCast 2800 (by norm_num)
  have h3 : round_double (((2800 : Int) : gdouble) / ((100 : Int) : gdouble))
      = some ((28 : Int) : gdouble) := by
    have e : ((2800 : Int) : gdouble) / ((100 : Int) : gdouble) = ((28 : Int) : gdouble) := by
      norm_num
    rw [e]
    exact round_double_intCast 28 (by norm_num)
  have hne : ((100 : Int) : gdouble) ≠ 0 := by norm_num
  have h28 : ((28 : Int) : gdouble) = 28 := by norm_num
  unfold normalized_value
  rw [hmin, hmax, hv, hw, double_sub_some, h1, double_mul_some, h2, double_div_some _ _ hne, h3,
    h28]

theorem native_value_wide_100 (c : GstColorBalanceChannel) (hmin : c.min_value = -2000000000)
    (hmax : c.max_value = 2000000000) : native_value c 100 = -2147483648 := by
  have hw : wrap_gint (2000000000 - -2000000000) = -294967296 := by norm_num [wrap_gint]
  have hb : round_double (1 * ((-294967296 : Int) : gdouble))
      = some ((-294967296 : Int) : gdouble) := by
    rw [one_mul]
    exact round_double_intCast _ (by norm_num [abs_lt])
  have hs : round_double (((-2000000000 : Int) : gdouble) + ((-294967296 : Int) : gdouble))
      = some ((-2294967296 : Int) : gdouble) := by
    have e : ((-2000000000 : Int) : gdouble) + ((-294967296 : Int) : gdouble)
        = ((-2294967296 : Int) : gdouble) := by
      norm_num
    rw [e]
    exact round_double_intCast _ (by norm_num [abs_lt])
  have hout : ¬ ((-2 ^ 31 - 1 : gdouble) < ((-2294967296 : Int) : gdouble) ∧
      ((-2294967296 : Int) : gdouble) < 2 ^ 31) := by norm_num
  unfold native_value
  rw [hmin, hmax, hw, double_mul_some, round_double_literal_hundred, double_mul_some, hb,
    double_add_some, hs, double_to_gint_out _ hout]
  norm_num

theorem engine_value_after_set (eng : Engine) (c : Fin 4) (ch : ChannelPtr) (x : gdouble)
    (st : State) (hc : st.color_balance_channel c = some ch)
    (hlast : st.last_value_set c = st.engine_value ch) :
    (gstreamer_set_color_balance eng c x st).engine_value ch
      = native_value (eng.channel ch) x := by
  unfold gstreamer_set_color_balance
  simp only [hc]
  by_cases hv : native_value (eng.channel ch) x = st.last_value_set c
  · simp [hv, hlast]
  · simp [hv]

theorem get_after_set (eng : Engine) (c : Fin 4) (ch : ChannelPtr) (x : gdouble) (st : State)
    (hc : st.color_balance_channel c = some ch)
    (hlast : st.last_value_set c = st.engine_value ch) :
    gstreamer_get_color_balance eng c (gstreamer_set_color_balance eng c x st) =
      normalized_value (eng.channel ch) (native_value (eng.channel ch) x) := by
  unfold gstreamer_set_color_balance
  simp only [hc]
  by_cases hv : native_value (eng.channel ch) x = st.last_value_set c
  · simp [hv, gstreamer_get_color_balance, hc, hlast]
  · simp [hv, gstreamer_get_color_balance, hc]

theorem set_color_balance_idem (eng : Engine) (c : Fin 4) (x : gdouble) (st : State) :
    gstreamer_set_color_balance eng c x (gstreamer_set_color_balance eng c x st) =
      gstreamer_set_color_balance eng c x st := by
  cases hc : st.color_balance_channel c with
  | none => simp [gstreamer_set_color_balance, hc]
  | some ch =>
    by_cases hv : native_value (eng.channel ch) x = st.last_value_set c
    · simp [gstreamer_set_color_balance, hc, hv]
    · simp [gstreamer_set_color_balance, hc, hv]

/-- C5: on an available channel, `gstreamer_set_color_balance` calls
`gst_color_balance_set_value` exactly when the mapped native value differs from
`last_value_set`, and then once; a second call with the same value changes nothing, so the
number of engine writes and `last_value_set` stay as the first call left them. -/
theorem C5_write_only_if_changed (eng : Engine) (c : Fin 4) (ch : ChannelPtr) (x : gdouble)
    (st : State) (hc : st.color_balance_channel c = some ch) :
    effects_since st (gstreamer_set_color_balance eng c x st) =
        (if native_value (eng.channel ch) x ≠ st.last_value_set c then
          [Effect.gst_color_balance_set_value st.color_balance_element ch
            (native_value (eng.channel ch) x)]
        else []) ∧
      gstreamer_set_color_balance eng c x (gstreamer_set_color_balance eng c x st) =
        gstreamer_set_color_balance eng c x st ∧
      color_balance_writes
          (gstreamer_set_color_balance eng c x (gstreamer_set_color_balance eng c x st)).trace =
        color_balance_writes (gstreamer_set_color_balance eng c x st).trace ∧
      (gstreamer_set_color_balance eng c x (gstreamer_set_color_balance eng c x st)).last_value_set
        = (gstreamer_set_color_balance eng c x st).last_value_set := by
  refine ⟨?_, set_color_balance_idem eng c x st, ?_, ?_⟩
  · by_cases hv : native_value (eng.channel ch) x = st.last_value_set c
    · simp [gstreamer_set_color_balance, hc, hv, effects_since]
    · simp [gstreamer_set_color_balance, hc, hv, effects_since]
  · rw [set_color_balance_idem]
  · rw [set_color_balance_idem]

/-- Witness for C5: value 50 on the `BRIGHTNESS` channel of the sample engine. -/
theorem C5_write_only_if_changed_witness :
    gstreamer_set_color_balance sample_engine 0 50
        (gstreamer_set_color_balance sample_engine 0 50
          (gstreamer_prepare_color_balance sample_engine 0 live_state).2) =
      gstreamer_set_color_balance sample_engine 0 50
        (gstreamer_prepare_color_balance sample_engine 0 live_state).2 :=
  (C5_write_only_if_changed sample_engine 0 0 50
    (gstreamer_prepare_color_balance sample_engine 0 live_state).2 (by decide)).2.1

/-! ## Query theorems -/

theorem set_color_balance_end_of_stream (eng : Engine) (c : Fin 4) (x : gdouble) (st : State) :
    (gstreamer_set_color_balance eng c x st).end_of_stream = st.end_of_stream := by
  cases hc : st.color_balance_channel c with
  | none => simp [gstreamer_set_color_balance, hc]
  | some ch =>
    by_cases hv : native_value (eng.channel ch) x = st.last_value_set c
    · simp [gstreamer_set_color_balance, hc, hv]
    · simp [gstreamer_set_color_balance, hc, hv]

theorem prepare_color_balance_end_of_stream (eng : Engine) (r_uninit : Nat) (st : State) :
    (gstreamer_prepare_color_balance eng r_uninit st).2.end_of_stream = st.end_of_stream := by
  unfold gstreamer_prepare_color_balance
  simp only
  split <;> rfl

theorem set_default_settings_loop_end_of_stream (host : Host) (eng : Engine)
    (l : List (Fin 4)) (st : State) :
    (set_default_settings_loop host eng l st).end_of_stream = st.end_of_stream := by
  induction l generalizing st with
  | nil => rfl
  | cons i rest ih =>
    unfold set_default_settings_loop
    rw [ih, set_color_balance_end_of_stream]

theorem set_default_settings_end_of_stream (host : Host) (eng : Engine) (r_uninit : Nat)
    (st : State) :
    (gstreamer_set_default_settings host eng r_uninit st).end_of_stream = st.end_of_stream := by
  unfold gstreamer_set_default_settings
  split
  · rfl
  · rw [set_default_settings_loop_end_of_stream, prepare_color_balance_end_of_stream]

theorem bus_callback_keeps_end_of_stream (host : Host) (eng : Engine) (r_uninit : Nat)
    (loop : GMainLoop) (msg : GstMessage) (st : State) (h : st.end_of_stream = true) :
    (bus_callback host eng r_uninit loop msg st).2.end_of_stream = true := by
  cases msg with
  | EOS => simp [bus_callback]
  | ERROR message => simpa [bus_callback, gstreamer_destroy_pipeline] using h
  | STATE_CHANGED =>
    simp only [bus_callback]
    split_ifs <;> simp [set_default_settings_end_of_stream, h]
  | BUFFERING percent =>
    unfold bus_callback
    simp only
    split_ifs <;> exact h
  | APPLICATION structure_name =>
    unfold bus_callback
    simp only
    split_ifs
    · simpa [gstreamer_destroy_pipeline] using h
    · exact h
  | OTHER => exact h

theorem apply_keeps_end_of_stream (call : AdapterCall) (st : State)
    (hcall : call.seeks_or_runs = false) (h : st.end_of_stream = true) :
    (call.apply st).end_of_stream = true := by
  cases call with
  | expose_video_overlay =>
    simp only [AdapterCall.apply, gstreamer_expose_video_overlay]
    split <;> exact h
  | bus_callback host eng r_uninit loop msg =>
    exact bus_callback_keeps_end_of_stream host eng r_uninit loop msg st h
  | bus_sync_handler host is_prepare_window_handle src =>
    simp only [AdapterCall.apply, bus_sync_handler]
    split <;> exact h
  | new_pad_cb pad => exact h
  | run_pipeline host eng loop s state => simp [AdapterCall.seeks_or_runs] at hcall
  | destroy_pipeline => exact h
  | add_pipeline_destroyed_cb cb_func user_data => exact h
  | play => exact h
  | pause => exact h
  | seek_to_time time_nanoseconds => simp [AdapterCall.seeks_or_runs] at hcall
  | seek_to_time_cb => simp [AdapterCall.seeks_or_runs] at hcall
  | suspend_pipeline eng =>
    simp only [AdapterCall.apply, gstreamer_suspend_pipeline]
    split <;> exact h
  | restart_pipeline host eng => simp [AdapterCall.seeks_or_runs] at hcall
  | inform_playbin_used status => exact h
  | set_volume volume =>
    simp only [AdapterCall.apply, gstreamer_set_volume]
    split <;> exact h
  | prepare_color_balance eng r_uninit =>
    simp only [AdapterCall.apply]
    rw [prepare_color_balance_end_of_stream]
    exact h
  | set_color_balance eng channel value =>
    simp only [AdapterCall.apply]
    rw [set_color_balance_end_of_stream]
    exact h
  | set_default_settings host eng r_uninit =>
    simp only [AdapterCall.apply]
    rw [set_default_settings_end_of_stream]
    exact h

theorem apply_calls_keep_end_of_stream (calls : List AdapterCall) (st : State)
    (hcalls : ∀ call ∈ calls, call.seeks_or_runs = false) (h : st.end_of_stream = true) :
    (apply_calls calls st).end_of_stream = true := by
  induction calls generalizing st with
  | nil => exact h
  | cons call rest ih =>
    unfold apply_calls
    exact ih _ (fun c hc => hcalls c (List.mem_cons_of_mem call hc))
      (apply_keeps_end_of_stream call st (hcalls call (List.mem_cons_self call rest)) h)

/-- C6: after `bus_callback` has handled an end-of-stream message, and after any further
sequence of calls into the adapter none of which is a seek or a run of a pipeline,
`gstreamer_get_position` and `gstreamer_get_duration` return the same value, whatever the
engine answers to the duration query: the duration with the error flag FALSE when the query
succeeds, and 0 (with the error flag TRUE) when it fails. -/
theorem C6_position_after_eos_is_duration (host : Host) (eng : Engine) (r_uninit : Nat)
    (loop : GMainLoop) (st : State) (calls : List AdapterCall) (eng_now : Engine)
    (hcalls : ∀ call ∈ calls, call.seeks_or_runs = false) :
    (gstreamer_get_position eng_now
        (apply_calls calls (bus_callback host eng r_uninit loop GstMessage.EOS st).2)).1
        = gstreamer_get_duration eng_now
            (apply_calls calls (bus_callback host eng r_uninit loop GstMessage.EOS st).2) ∧
      gstreamer_get_position eng_now
        (apply_calls calls (bus_callback host eng r_uninit loop GstMessage.EOS st).2)
        = (match eng_now.query_duration
              (apply_calls calls
                (bus_callback host eng r_uninit loop GstMessage.EOS st).2).pipeline with
            | some d => (d, false)
            | none => (0, true)) ∧
      gstreamer_get_duration eng_now
        (apply_calls calls (bus_callback host eng r_uninit loop GstMessage.EOS st).2)
        = (match eng_now.query_duration
              (apply_calls calls
                (bus_callback host eng r_uninit loop GstMessage.EOS st).2).pipeline with
            | some d => d
            | none => 0) := by
  have heos : (apply_calls calls
      (bus_callback host eng r_uninit loop GstMessage.EOS st).2).end_of_stream = true :=
    apply_calls_keep_end_of_stream calls _ hcalls (by simp [bus_callback])
  unfold gstreamer_get_position gstreamer_get_duration
  rw [heos]
  cases eng_now.query_duration (apply_calls calls
    (bus_callback host eng r_uninit loop GstMessage.EOS st).2).pipeline <;> simp

/-- Witness for C6: after the end of the stream on the live sample pipeline, a pause, a volume
change and a buffering message, position and duration are both 60 s. -/
theorem C6_position_after_eos_is_duration_witness :
    (gstreamer_get_position sample_engine
        (apply_calls
          [AdapterCall.pause, AdapterCall.set_volume (1 / 2),
           AdapterCall.bus_callback sample_host sample_engine 0 3 (GstMessage.BUFFERING 50)]
          (bus_callback sample_host sample_engine 0 3 GstMessage.EOS live_state).2)).1
      = gstreamer_get_duration sample_engine
        (apply_calls
          [AdapterCall.pause, AdapterCall.set_volume (1 / 2),
           AdapterCall.bus_callback sample_host sample_engine 0 3 (GstMessage.BUFFERING 50)]
          (bus_callback sample_host sample_engine 0 3 GstMessage.EOS live_state).2) :=
  (C6_position_after_eos_is_duration sample_host sample_engine 0 3 live_state
    [AdapterCall.pause, AdapterCall.set_volume (1 / 2),
     AdapterCall.bus_callback sample_host sample_engine 0 3 (GstMessage.BUFFERING 50)]
    sample_engine (by
      intro call hcall
      simp only [List.mem_cons, List.mem_singleton, List.not_mem_nil, or_false] at hcall
      rcases hcall with rfl | rfl | rfl <;> rfl)).1

theorem scan_pads_append (eng : Engine) (l1 l2 : List GstPad) (out : VideoInfo) :
    scan_pads eng (l1 ++ l2) out = scan_pads eng l2 (scan_pads eng l1 out) := by
  induction l1 generalizing out with
  | nil => rfl
  | cons pad rest ih =>
    simp only [List.cons_append, scan_pads]
    cases eng.pad_current_caps pad <;> simp [ih]

theorem scan_pads_not_fixed (eng : Engine) (l : List GstPad) (out : VideoInfo)
    (h : ∀ q ∈ l, ∀ caps, eng.pad_current_caps q = some caps → caps.is_fixed = false) :
    scan_pads eng l out = out := by
  induction l generalizing out with
  | nil => rfl
  | cons pad rest ih =>
    have hrest := ih (h := fun q hq => h q (List.mem_cons_of_mem pad hq))
    unfold scan_pads
    cases hcaps : eng.pad_current_caps pad with
    | none => exact hrest out
    | some caps =>
      have hnf := h pad (List.mem_cons_self pad rest) caps hcaps
      simp only [read_video_props, hnf]
      exact hrest out

/-- C7: when the observed pads are `before ++ after`, none of them with fixed capabilities,
with at most one further pad in between whose fixed capabilities carry only width `w` and
height `h`, then `gstreamer_get_video_info` returns the default tuple (format NULL, all
numbers 0) if there is no such pad, and otherwise width `w` and height `h` with format NULL
and framerate and pixel aspect ratio 0/0. -/
theorem C7_video_info_defaults (eng : Engine) (st : State) (before after : List GstPad)
    (fixed_pad : Option GstPad) (w h : Int)
    (hlist : st.created_pads_list = before ++ fixed_pad.toList ++ after)
    (hothers : ∀ q ∈ before ++ after, ∀ caps,
      eng.pad_current_caps q = some caps → caps.is_fixed = false)
    (hfixed : ∀ pad ∈ fixed_pad,
      eng.pad_current_caps pad = some ⟨true, ⟨none, some w, some h, none, none⟩⟩) :
    gstreamer_get_video_info eng st =
      if fixed_pad.isSome then
        { format := none, width := w, height := h, framerate_numerator := 0,
          framerate_denom := 0, pixel_aspect_ratio_num := 0, pixel_aspect_ratio_denom := 0 }
      else
        { format := none, width := 0, height := 0, framerate_numerator := 0,
          framerate_denom := 0, pixel_aspect_ratio_num := 0, pixel_aspect_ratio_denom := 0 } := by
  have hb : ∀ q ∈ before, ∀ caps, eng.pad_current_caps q = some caps → caps.is_fixed = false :=
    fun q hq => hothers q (List.mem_append_left _ hq)
  have ha : ∀ q ∈ after, ∀ caps, eng.pad_current_caps q = some caps → caps.is_fixed = false :=
    fun q hq => hothers q (List.mem_append_right _ hq)
  unfold gstreamer_get_video_info
  rw [hlist, scan_pads_append, scan_pads_append, scan_pads_not_fixed eng before _ hb,
    scan_pads_not_fixed eng after _ ha]
  cases fixed_pad with
  | none => rfl
  | some pad =>
    have hp := hfixed pad rfl
    simp [Option.toList, scan_pads, hp, read_video_props]

/-- Witness for C7: pads 2 (caps not fixed), 1 (fixed, 640x480 only) and 3 (no caps). -/
theorem C7_video_info_defaults_witness :
    gstreamer_get_video_info sample_engine (new_pad_cb 3 (new_pad_cb 1 (new_pad_cb 2 live_state)))
      = { format := none, width := 640, height := 480, framerate_numerator := 0,
          framerate_denom := 0, pixel_aspect_ratio_num := 0, pixel_aspect_ratio_denom := 0 } :=
  C7_video_info_defaults sample_engine (new_pad_cb 3 (new_pad_cb 1 (new_pad_cb 2 live_state)))
    [2] [3] (some 1) 640 480 (by decide)
    (by
      intro q hq caps hcaps
      simp only [List.cons_append, List.nil_append, List.mem_cons, List.mem_singleton,
        List.not_mem_nil, or_false] at hq
      rcases hq with rfl | rfl
      · simp [sample_engine] at hcaps
        rw [← hcaps]
      · simp [sample_engine] at hcaps)
    (by
      intro pad hpad
      cases hpad
      rfl)

/-! ## Suspend and restart theorems -/

theorem to_gint64_to_guint64 (x : Int) (hlo : -2 ^ 63 ≤ x) (hhi : x < 2 ^ 63) :
    to_gint64 (to_guint64 x) = x := by
  unfold to_gint64 to_guint64
  have hnn : (0 : Int) ≤ x % 2 ^ 64 := Int.emod_nonneg x (by norm_num)
  have hlt : x % 2 ^ 64 < 2 ^ 64 := Int.emod_lt_of_pos x (by norm_num)
  have hcast : (((x % 2 ^ 64).toNat : Nat) : Int) = x % 2 ^ 64 := Int.toNat_of_nonneg hnn
  have hmod : (x % 2 ^ 64).toNat % 2 ^ 64 = (x % 2 ^ 64).toNat := by
    apply Nat.mod_eq_of_lt
    omega
  rw [hmod]
  by_cases hx : 0 ≤ x
  · have hxm : x % 2 ^ 64 = x := Int.emod_eq_of_lt hx (by omega)
    rw [if_pos (by omega), hcast, hxm]
  · have hxm : x % 2 ^ 64 = x + 2 ^ 64 := by
      rw [← Int.add_emod_self]
      exact Int.emod_eq_of_lt (by omega) (by omega)
    rw [if_neg (by omega), hcast, hxm]
    ring

theorem effects_since_append (before after : State) (l : List Effect)
    (h : after.trace = before.trace ++ l) : effects_since before after = l := by
  unfold effects_since
  rw [h, List.drop_left]

theorem suspend_live (eng : Engine) (st : State) (hlive : gstreamer_no_pipeline st = false) :
    gstreamer_suspend_pipeline eng st =
      gstreamer_destroy_pipeline (gstreamer_pause
        { st with
          suspended_pos := to_guint64 (gstreamer_get_position eng st).1
          suspended_state := eng.element_state st.pipeline
          suspended_audio_volume := gstreamer_get_volume eng st }) := by
  simp [gstreamer_suspend_pipeline, hlive, gstreamer_get_state, gstreamer_get_volume]

/-- C8, as stated, fails: on a live pipeline that the engine reports in `GST_STATE_NULL`, the
snapshot state is the no-snapshot sentinel and `gstreamer_restart_pipeline` does nothing: no
pipeline is run, no state is requested and no seek is scheduled. -/
theorem C8_null_state_not_restored :
    gstreamer_no_pipeline live_state = false ∧
      (gstreamer_suspend_pipeline sample_engine_null_state live_state).suspended_state
        = GstState.NULL ∧
      (gstreamer_suspend_pipeline sample_engine_null_state live_state).suspended_pos
        = 5000000000 ∧
      effects_since (gstreamer_suspend_pipeline sample_engine_null_state live_state)
        (gstreamer_restart_pipeline sample_host sample_engine
          (gstreamer_suspend_pipeline sample_engine_null_state live_state)) = [] ∧
      gstreamer_no_pipeline (gstreamer_restart_pipeline sample_host sample_engine
        (gstreamer_suspend_pipeline sample_engine_null_state live_state)) = true := by
  refine ⟨?_, ?_, ?_, ?_, ?_⟩ <;> decide

theorem restart_trace (host : Host) (eng : Engine) (st : State) (p : GstElement)
    (hstate : st.suspended_state ≠ GstState.NULL)
    (hparse : eng.gst_parse_launch
      (host.main_create_pipeline host.main_get_current_uri.1 host.main_get_current_uri.2)
        = some p) :
    (seek_to_time_cb (gstreamer_restart_pipeline host eng st)).2.trace =
      st.trace ++
        ([Effect.main_get_current_uri,
          Effect.main_create_pipeline host.main_get_current_uri.1 host.main_get_current_uri.2,
          Effect.gst_parse_launch
            (host.main_create_pipeline host.main_get_current_uri.1 host.main_get_current_uri.2),
          Effect.gst_bus_add_watch (some p) host.main_get_main_loop] ++
        (if host.main_have_gui then [Effect.gst_bus_set_sync_handler (some p)] else []) ++
        (if st.created_pads_list ≠ [] then [Effect.g_list_free_pads st.created_pads_list]
          else []) ++
        (eng.bin_elements (some p)).map Effect.g_signal_connect_pad_added ++
        [Effect.gst_element_set_state (some p) GstState.READY,
          Effect.gst_element_set_state (some p)
            (if st.suspended_state = GstState.PLAYING then GstState.PLAYING
              else GstState.PAUSED),
          Effect.g_timeout_add_seconds_seek_to_time_cb 1,
          Effect.gst_element_seek_simple (some p) (to_gint64 st.suspended_pos)] ++
        (if st.using_playbin then
          [Effect.g_object_set_volume (some p) st.suspended_audio_volume] else [])) := by
  by_cases hplay : st.suspended_state = GstState.PLAYING <;>
    by_cases hpb : st.using_playbin = true <;>
    simp [seek_to_time_cb, gstreamer_restart_pipeline, gstreamer_run_pipeline,
      gstreamer_seek_to_time, gstreamer_set_volume, hstate, hparse, hplay, hpb]

/-- C8, amended: for every state with a live pipeline whose engine state at suspend is not
`GST_STATE_NULL`, when the engine parses the description the host supplies at restart,
suspend, restart and the deferred callback request `READY` and then `PLAYING` (if the state
captured was `PLAYING`) or `PAUSED` (otherwise) on the new pipeline, issue one seek, on the
new pipeline, to the position captured at suspend, and, when the pipeline is a playbin,
write the volume captured at suspend to the new pipeline (no volume is written otherwise). -/
theorem C8_suspend_restart_restores (host : Host) (eng eng_restart : Engine) (st : State)
    (p : GstElement)
    (hlive : gstreamer_no_pipeline st = false)
    (hstate : eng.element_state st.pipeline ≠ GstState.NULL)
    (hparse : eng_restart.gst_parse_launch
      (host.main_create_pipeline host.main_get_current_uri.1 host.main_get_current_uri.2)
        = some p)
    (hpos : -2 ^ 63 ≤ (gstreamer_get_position eng st).1 ∧
      (gstreamer_get_position eng st).1 < 2 ^ 63) :
    state_requests (effects_since (gstreamer_suspend_pipeline eng st)
        (seek_to_time_cb (gstreamer_restart_pipeline host eng_restart
          (gstreamer_suspend_pipeline eng st))).2) =
        [(some p, GstState.READY),
         (some p, if eng.element_state st.pipeline = GstState.PLAYING then GstState.PLAYING
            else GstState.PAUSED)] ∧
      seeks_issued (effects_since (gstreamer_suspend_pipeline eng st)
        (seek_to_time_cb (gstreamer_restart_pipeline host eng_restart
          (gstreamer_suspend_pipeline eng st))).2) =
        [(some p, (gstreamer_get_position eng st).1)] ∧
      volumes_written (effects_since (gstreamer_suspend_pipeline eng st)
        (seek_to_time_cb (gstreamer_restart_pipeline host eng_restart
          (gstreamer_suspend_pipeline eng st))).2) =
        (if st.using_playbin then [(some p, eng.volume st.pipeline)] else []) := by
  have hs := suspend_live eng st hlive
  have hss : (gstreamer_suspend_pipeline eng st).suspended_state = eng.element_state st.pipeline := by
    rw [hs]; rfl
  have hsp : (gstreamer_suspend_pipeline eng st).suspended_pos
      = to_guint64 (gstreamer_get_position eng st).1 := by
    rw [hs]; rfl
  have hsv : (gstreamer_suspend_pipeline eng st).suspended_audio_volume
      = gstreamer_get_volume eng st := by
    rw [hs]; rfl
  have hsu : (gstreamer_suspend_pipeline eng st).using_playbin = st.using_playbin := by
    rw [hs]; rfl
  have htr := restart_trace host eng_restart (gstreamer_suspend_pipeline eng st) p
    (by rw [hss]; exact hstate) hparse
  rw [effects_since_append _ _ _ htr, hss, hsp, hsv, hsu,
    to_gint64_to_guint64 _ hpos.1 hpos.2]
  by_cases hpb : st.using_playbin = true <;>
    by_cases hgui : host.main_have_gui = true <;>
    by_cases hpads : (gstreamer_suspend_pipeline eng st).created_pads_list = [] <;>
    simp [state_requests, seeks_issued, volumes_written, List.filterMap_append,
      Effect.state_request, Effect.seek_issued, Effect.volume_written, hpb, hgui, hpads,
      gstreamer_get_volume, List.filterMap_map, Function.comp_def]

/-- Witness for C8, amended: the live sample playbin, playing at 5 s with volume 1/2. -/
theorem C8_suspend_restart_restores_witness :
    state_requests (effects_since (gstreamer_suspend_pipeline sample_engine live_state)
        (seek_to_time_cb (gstreamer_restart_pipeline sample_host sample_engine
          (gstreamer_suspend_pipeline sample_engine live_state))).2) =
        [(some 7, GstState.READY), (some 7, GstState.PLAYING)] ∧
      seeks_issued (effects_since (gstreamer_suspend_pipeline sample_engine live_state)
        (seek_to_time_cb (gstreamer_restart_pipeline sample_host sample_engine
          (gstreamer_suspend_pipeline sample_engine live_state))).2) =
        [(some 7, 5000000000)] ∧
      volumes_written (effects_since (gstreamer_suspend_pipeline sample_engine live_state)
        (seek_to_time_cb (gstreamer_restart_pipeline sample_host sample_engine
          (gstreamer_suspend_pipeline sample_engine live_state))).2) =
        [(some 7, 1 / 2)] :=
  C8_suspend_restart_restores sample_host sample_engine sample_engine live_state 7
    (by decide) (by decide) (by decide) (by decide)

/-- C9: at process start no snapshot was ever captured; `suspended_state`, declared without an
initialiser, holds 0, which is `GST_STATE_VOID_PENDING` and not the `GST_STATE_NULL` that
`gstreamer_restart_pipeline` tests, so the restart asks the host for a description, runs it
paused and schedules the deferred seek, which then seeks the new pipeline to 0. -/
theorem C9_restart_at_start_runs :
    start_state.suspended_state = GstState.VOID_PENDING ∧
      GstState.toNat start_state.suspended_state = 0 ∧
      GstState.toNat GstState.NULL = 1 ∧
      (gstreamer_restart_pipeline sample_host sample_engine start_state).trace =
        [Effect.main_get_current_uri,
         Effect.main_create_pipeline "file:///a.ogg" "a.ogg",
         Effect.gst_parse_launch "playbin uri=file:///a.ogg",
         Effect.gst_bus_add_watch (some 7) 3,
         Effect.gst_bus_set_sync_handler (some 7),
         Effect.g_signal_connect_pad_added 8,
         Effect.g_signal_connect_pad_added 9,
         Effect.gst_element_set_state (some 7) GstState.READY,
         Effect.gst_element_set_state (some 7) GstState.PAUSED,
         Effect.g_timeout_add_seconds_seek_to_time_cb 1] ∧
      seeks_issued
        (seek_to_time_cb (gstreamer_restart_pipeline sample_host sample_engine start_state)).2.trace
        = [(some 7, 0)] ∧
      start_state.trace = [] ∧
      gstreamer_no_pipeline start_state = true ∧
      gstreamer_no_pipeline (gstreamer_restart_pipeline sample_host sample_engine start_state)
        = false := by
  refine ⟨?_, ?_, ?_, ?_, ?_, ?_, ?_, ?_⟩ <;> decide

/-- In every state whose `suspended_state` is the one left by a `gstreamer_suspend_pipeline`
that found no pipeline, `gstreamer_restart_pipeline` changes nothing: no host request, no
pipeline run, no deferred seek, every variable as it was. -/
theorem restart_noop_after_empty_suspend (host : Host) (eng eng_restart : Engine)
    (st_suspend st : State) (hnone : gstreamer_no_pipeline st_suspend = true)
    (hstate : st.suspended_state = (gstreamer_suspend_pipeline eng st_suspend).suspended_state) :
    gstreamer_restart_pipeline host eng_restart st = st := by
  have hnull : (gstreamer_suspend_pipeline eng st_suspend).suspended_state = GstState.NULL := by
    simp [gstreamer_suspend_pipeline, hnone]
  rw [hnull] at hstate
  simp [gstreamer_restart_pipeline, hstate]

/-- Suspend at process start, then restart: nothing changes. -/
theorem restart_noop_after_empty_suspend_at_start :
    gstreamer_restart_pipeline sample_host sample_engine
        (gstreamer_suspend_pipeline sample_engine start_state) =
      gstreamer_suspend_pipeline sample_engine start_state :=
  restart_noop_after_empty_suspend sample_host sample_engine sample_engine start_state
    (gstreamer_suspend_pipeline sample_engine start_state) (by decide) rfl

theorem collect_available_bits (slots : Fin 4 → Option ChannelPtr) (ev : ChannelPtr → Int)
    (l : List (Fin 4)) (r : Nat) (last : Fin 4 → Int) :
    (collect_available slots ev l (r, last)).1 =
      r ||| (collect_available slots ev l (0, last)).1 := by
  induction l generalizing r last with
  | nil => simp [collect_available]
  | cons i rest ih =>
    unfold collect_available
    cases slots i with
    | none => exact ih r last
    | some ch =>
      simp only
      rw [ih (r ||| 1 <<< i.val), ih (0 ||| 1 <<< i.val)]
      simp [Nat.lor_assoc]

/-- C10: with the single channel `BRIGHTNESS` reported and the uninitialised local `r`
holding 16 on entry, `gstreamer_prepare_color_balance` fills the brightness slot only and
returns 17: bit 0 for brightness, and bit 4, which stands for no channel. -/
theorem C10_prepare_returns_stale_bits :
    sample_engine.color_balance_channels live_state.pipeline = some [0] ∧
      (sample_engine.channel 0).label = "BRIGHTNESS" ∧
      (gstreamer_prepare_color_balance sample_engine 16 live_state).1 = 17 ∧
      (gstreamer_prepare_color_balance sample_engine 16 live_state).2.color_balance_channel
        = Function.update (fun _ => none) CHANNEL_BRIGHTNESS (some 0) := by
  refine ⟨?_, ?_, ?_, ?_⟩ <;> decide

/-! ## End of stream -/

/-- C11, as stated, fails: with a host configured to quit at the end of the stream, the
end-of-stream message destroys the pipeline and quits the run loop, and the `end_of_stream`
flag is set all the same. -/
theorem C11_flag_set_when_quitting :
    sample_host_quit.config_quit_on_stream_end = true ∧
      live_state.end_of_stream = false ∧
      gstreamer_get_pipeline_description
        (bus_callback sample_host_quit sample_engine 0 3 GstMessage.EOS live_state).2 = "" ∧
      Effect.g_main_loop_quit 3 ∈ effects_since live_state
        (bus_callback sample_host_quit sample_engine 0 3 GstMessage.EOS live_state).2 ∧
      gstreamer_end_of_stream
        (bus_callback sample_host_quit sample_engine 0 3 GstMessage.EOS live_state).2 = true := by
  refine ⟨?_, ?_, ?_, ?_, ?_⟩ <;> decide

/-- C11, amended: on an end-of-stream message, if the host is configured to quit at the end of
the stream or has no GUI, `bus_callback` makes exactly the calls of
`gstreamer_destroy_pipeline` followed by `g_main_loop_quit` and the description becomes
empty; otherwise it makes no call and changes nothing but the flag; in both cases the
`end_of_stream` flag is set, so `gstreamer_end_of_stream` returns TRUE. -/
theorem C11_eos_dispatch (host : Host) (eng : Engine) (r_uninit : Nat) (loop : GMainLoop)
    (st : State) :
    gstreamer_end_of_stream (bus_callback host eng r_uninit loop GstMessage.EOS st).2 = true ∧
      (if host.config_quit_on_stream_end = true ∨ host.main_have_gui = false then
        gstreamer_get_pipeline_description
            (bus_callback host eng r_uninit loop GstMessage.EOS st).2 = "" ∧
          effects_since st (bus_callback host eng r_uninit loop GstMessage.EOS st).2 =
            effects_since st (gstreamer_destroy_pipeline st) ++ [Effect.g_main_loop_quit loop]
      else
        (bus_callback host eng r_uninit loop GstMessage.EOS st).2
            = { st with end_of_stream := true } ∧
          gstreamer_get_pipeline_description
            (bus_callback host eng r_uninit loop GstMessage.EOS st).2
            = gstreamer_get_pipeline_description st ∧
          effects_since st (bus_callback host eng r_uninit loop GstMessage.EOS st).2 = []) := by
  refine ⟨by simp [bus_callback, gstreamer_end_of_stream], ?_⟩
  by_cases hq : host.config_quit_on_stream_end = true
  · simp [hq, bus_callback, gstreamer_get_pipeline_description, gstreamer_destroy_pipeline,
      effects_since]
  · by_cases hg : host.main_have_gui = true
    · simp [hq, hg, bus_callback, gstreamer_get_pipeline_description, effects_since]
    · simp [hq, hg, bus_callback, gstreamer_get_pipeline_description, gstreamer_destroy_pipeline,
        effects_since]

/-! ## Video information: which pad supplies a field -/

theorem read_video_props_carried (caps : GstCaps) (out : VideoInfo) (f : VideoField)
    (v : FieldValue) (hfixed : caps.is_fixed = true) (hv : caps.structure0.field f = some v) :
    (read_video_props caps out).field f = v := by
  obtain ⟨fixed, ⟨fmt, w, h, par, fr⟩⟩ := caps
  simp only at hfixed
  subst hfixed
  cases f <;> cases fmt <;> cases w <;> cases h <;> cases par <;> cases fr <;>
    simp_all [read_video_props, GstStructure.field, VideoInfo.field]

theorem read_video_props_not_carried (caps : GstCaps) (out : VideoInfo) (f : VideoField)
    (hv : (if caps.is_fixed then caps.structure0.field f else none) = none) :
    (read_video_props caps out).field f = out.field f := by
  obtain ⟨fixed, ⟨fmt, w, h, par, fr⟩⟩ := caps
  cases fixed
  · simp [read_video_props]
  · cases f <;> cases fmt <;> cases w <;> cases h <;> cases par <;> cases fr <;>
      simp_all [read_video_props, GstStructure.field, VideoInfo.field]

theorem scan_pads_not_carried (eng : Engine) (f : VideoField) (l : List GstPad) (out : VideoInfo)
    (h : ∀ q ∈ l, carried_field eng q f = none) :
    (scan_pads eng l out).field f = out.field f := by
  induction l generalizing out with
  | nil => rfl
  | cons pad rest ih =>
    have hrest := ih (h := fun q hq => h q (List.mem_cons_of_mem pad hq))
    have hpad := h pad (List.mem_cons_self pad rest)
    unfold carried_field at hpad
    unfold scan_pads
    cases hcaps : eng.pad_current_caps pad with
    | none => exact hrest out
    | some caps =>
      rw [hcaps] at hpad
      simp only
      rw [hrest, read_video_props_not_carried caps out f hpad]

/-- C12, as stated, fails: with pads 1 (fixed, 640x480) and 5 (fixed, 320x240) observed in
that order, the first pad whose fixed capabilities carry the width supplies 640, and
`gstreamer_get_video_info` returns the 320 of the later pad (and its height). -/
theorem C12_later_pad_overwrites :
    (new_pad_cb 5 (new_pad_cb 1 live_state)).created_pads_list = [1, 5] ∧
      carried_field sample_engine_two_fixed 1 VideoField.width = some (FieldValue.int 640) ∧
      carried_field sample_engine_two_fixed 5 VideoField.width = some (FieldValue.int 320) ∧
      (gstreamer_get_video_info sample_engine_two_fixed
        (new_pad_cb 5 (new_pad_cb 1 live_state))).width = 320 ∧
      (gstreamer_get_video_info sample_engine_two_fixed
        (new_pad_cb 5 (new_pad_cb 1 live_state))).height = 240 := by
  refine ⟨?_, ?_, ?_, ?_, ?_⟩ <;> decide

/-- C12, amended: for every list of observed pads and every output field, when a pad's fixed
capabilities carry for that field a value that is not zero (a format string, a non-zero
integer, a fraction with non-zero parts) and no later pad in the list has fixed capabilities
carrying the field, `gstreamer_get_video_info` returns that value for the field, whatever
the earlier pads supplied: the last such pad wins. -/
theorem C12_last_fixed_pad_wins (eng : Engine) (st : State) (before after : List GstPad)
    (pad : GstPad) (f : VideoField) (v : FieldValue)
    (hlist : st.created_pads_list = before ++ pad :: after)
    (hpad : carried_field eng pad f = some v)
    (hnonzero : v.nonzero)
    (hafter : ∀ q ∈ after, carried_field eng q f = none) :
    (gstreamer_get_video_info eng st).field f = v := by
  have _ := hnonzero
  unfold gstreamer_get_video_info
  rw [hlist, scan_pads_append]
  unfold carried_field at hpad
  cases hcaps : eng.pad_current_caps pad with
  | none => rw [hcaps] at hpad; simp at hpad
  | some caps =>
    rw [hcaps] at hpad
    simp only at hpad
    by_cases hfixed : caps.is_fixed = true
    · rw [if_pos hfixed] at hpad
      simp only [scan_pads, hcaps]
      rw [scan_pads_not_carried eng f after _ hafter]
      exact read_video_props_carried caps _ f v hfixed hpad
    · rw [if_neg hfixed] at hpad
      simp at hpad

/-- Witness for C12, amended: pads 1 and 5 of the two-pad sample engine, field width. -/
theorem C12_last_fixed_pad_wins_witness :
    (gstreamer_get_video_info sample_engine_two_fixed
      (new_pad_cb 5 (new_pad_cb 1 live_state))).field VideoField.width = FieldValue.int 320 :=
  C12_last_fixed_pad_wins sample_engine_two_fixed (new_pad_cb 5 (new_pad_cb 1 live_state))
    [1] [] 5 VideoField.width (FieldValue.int 320) (by decide) (by decide)
    (by simp [FieldValue.nonzero]) (by simp)

/-! ## Colour balance: set then get -/

/-- C13, as stated, fails: on the range 0..100 the value 29 is mapped to 28 (the product
`29 * 0.01 * 100` is rounded below 29) and read back as 28, at distance 1 from 29, which is
not below `100 / (max_value - min_value) = 1`; and on the range -2000000000..2000000000 the
value 100 is mapped to -2147483648, below `min_value`. -/
theorem C13_one_step_not_strict :
    native_value (sample_engine_percent.channel 0) 29 = 28 ∧
      gstreamer_get_color_balance sample_engine_percent 0
        (gstreamer_set_color_balance sample_engine_percent 0 29
          (gstreamer_prepare_color_balance sample_engine_percent 0 live_state).2) = some 28 ∧
      ¬ (|(28 : gdouble) - 29| < 100 / (((sample_engine_percent.channel 0).max_value
          - (sample_engine_percent.channel 0).min_value : Int) : gdouble)) ∧
      native_value (sample_engine_wide.channel 0) 100 = -2147483648 ∧
      (sample_engine_wide.channel 0).min_value = -2000000000 := by
  have hmin : (sample_engine_percent.channel 0).min_value = 0 := rfl
  have hmax : (sample_engine_percent.channel 0).max_value = 100 := rfl
  refine ⟨native_value_percent_29 _ hmin hmax, ?_, ?_,
    native_value_wide_100 _ rfl rfl, rfl⟩
  · rw [get_after_set _ _ 0 _ _ (by decide) (by decide), native_value_percent_29 _ hmin hmax]
    exact normalized_value_percent_28 _ hmin hmax _ rfl
  · rw [hmin, hmax]
    norm_num

/-- C13, amended: for every available channel whose `min_value < max_value` are `gint` values
with `max_value - min_value` below `2 ^ 31`, in a state where `last_value_set` of the channel
is the value the engine channel holds (as `gstreamer_prepare_color_balance` and every set
leave it), and for every `x` with `0 ≤ x ≤ 100`, in binary64 arithmetic:  the native value
`gstreamer_set_color_balance` maps `x` to lies in `[min_value, max_value]`, the engine channel
holds it after the call, and `gstreamer_get_color_balance` called right after returns a finite
`y` with `|y - x| < 101 / (max_value - min_value)`. -/
theorem C13_set_get_bound (eng : Engine) (c : Fin 4) (ch : ChannelPtr) (x : gdouble)
    (st : State) (hc : st.color_balance_channel c = some ch)
    (hlast : st.last_value_set c = st.engine_value ch)
    (hrange : (eng.channel ch).min_value < (eng.channel ch).max_value)
    (hmin : -2 ^ 31 ≤ (eng.channel ch).min_value)
    (hmax : (eng.channel ch).max_value < 2 ^ 31)
    (hwidth : (eng.channel ch).max_value - (eng.channel ch).min_value < 2 ^ 31)
    (hx0 : 0 ≤ x) (hx1 : x ≤ 100) :
    (eng.channel ch).min_value ≤ native_value (eng.channel ch) x ∧
      native_value (eng.channel ch) x ≤ (eng.channel ch).max_value ∧
      (gstreamer_set_color_balance eng c x st).engine_value ch
        = native_value (eng.channel ch) x ∧
      ∃ y : gdouble,
        gstreamer_get_color_balance eng c (gstreamer_set_color_balance eng c x st) = some y ∧
        |y - x| < 101 /
          (((eng.channel ch).max_value - (eng.channel ch).min_value : Int) : gdouble) := by
  obtain ⟨h0, h1, y, hy, hbound⟩ :=
    set_get_bound (eng.channel ch) x hmin hmax hrange hwidth hx0 hx1
  refine ⟨h0, h1, engine_value_after_set eng c ch x st hc hlast, y, ?_, hbound⟩
  rw [get_after_set eng c ch x st hc hlast, hy]

/-- Witness for C13, amended: value 50 on the `BRIGHTNESS` channel of the sample engine
(range 0..255), right after `gstreamer_prepare_color_balance`. -/
theorem C13_set_get_bound_witness :
    (sample_engine.channel 0).min_value ≤ native_value (sample_engine.channel 0) 50 ∧
      native_value (sample_engine.channel 0) 50 ≤ (sample_engine.channel 0).max_value ∧
      (gstreamer_set_color_balance sample_engine 0 50
          (gstreamer_prepare_color_balance sample_engine 0 live_state).2).engine_value 0
        = native_value (sample_engine.channel 0) 50 ∧
      ∃ y : gdouble,
        gstreamer_get_color_balance sample_engine 0
          (gstreamer_set_color_balance sample_engine 0 50
            (gstreamer_prepare_color_balance sample_engine 0 live_state).2) = some y ∧
        |y - 50| < 101 / (((sample_engine.channel 0).max_value
          - (sample_engine.channel 0).min_value : Int) : gdouble) :=
  C13_set_get_bound sample_engine 0 0 50
    (gstreamer_prepare_color_balance sample_engine 0 live_state).2
    (by decide) (by decide) (by simp [sample_engine]) (by simp [sample_engine])
    (by simp [sample_engine]) (by simp [sample_engine]) (by norm_num) (by norm_num)

end GstPlay
